import Mathlib

/-!
Shallow embedding of the VisaLegatio bias-review & influence-monitoring
backend (app/backend): the deterministic sampler, snapshot cache, influence
model trainer, flag/decision catalog seeding, and the audit workflow.
Timestamps are modelled as integer seconds; SQLAlchemy tables are lists of
typed rows; external numeric libraries (hashlib.sha1, sklearn, numpy, scipy,
math.exp/sqrt) are parameters of the operations that call them.
-/

namespace VisaLegatio

/-- Timestamps are seconds (datetime.utcnow() readings and column values). -/
abbrev Timestamp := Int

/-- Seconds in `timedelta(hours=h)`. -/
def hoursSec (h : Int) : Int := h * 3600

/-- Seconds in `timedelta(days=d)`. -/
def daysSec (d : Int) : Int := d * 86400

/-- Stand-in for Python `datetime.min` used by `app.submitted_at or datetime.min`
(seconds of 0001-01-01 relative to the epoch). -/
def datetimeMin : Timestamp := -62135596800

/-- Python `a or b` on optional strings: empty string and None are falsy. -/
def pyOrStr (a b : Option String) : Option String :=
  match a with
  | some s => if s = "" then b else some s
  | none => b

/-- Python truthiness filter on an optional string (None and "" are falsy). -/
def truthyStr (a : Option String) : Option String :=
  match a with
  | some s => if s = "" then none else some s
  | none => none

/-- Python `round` to an integer: round-half-to-even banker rounding. -/
def roundHalfEven (x : ℚ) : ℤ :=
  let n := Int.floor x
  let frac := x - n
  if frac < 1/2 then n
  else if 1/2 < frac then n + 1
  else if n % 2 = 0 then n else n + 1

/-- Python `round(x, digits)` on rationals. -/
def pyRound (digits : ℕ) (x : ℚ) : ℚ :=
  let p : ℚ := ((10 ^ digits : ℕ) : ℚ)
  ((roundHalfEven (x * p) : ℤ) : ℚ) / p

/-- Value of one hexadecimal digit (other characters contribute 0). -/
def hexDigitVal (c : Char) : ℕ :=
  if '0' ≤ c ∧ c ≤ '9' then c.toNat - '0'.toNat
  else if 'a' ≤ c ∧ c ≤ 'f' then c.toNat - 'a'.toNat + 10
  else if 'A' ≤ c ∧ c ≤ 'F' then c.toNat - 'A'.toNat + 10
  else 0

/-- Python `int(s, 16)` on the hex strings produced by `hexdigest()`. -/
def hexVal (s : String) : ℕ :=
  s.foldl (fun acc c => acc * 16 + hexDigitVal c) 0

/-- Python `str.lower()` (ASCII lowering, character by character). -/
def pyLower (s : String) : String :=
  String.mk (s.data.map Char.toLower)

/-- Lexicographic strict comparison of char lists (code-point order, the
order Python string comparison and the SQL text collation use). -/
def charListLt : List Char → List Char → Bool
  | [], [] => false
  | [], _ :: _ => true
  | _ :: _, [] => false
  | c :: cs, d :: ds =>
      if c < d then true else if d < c then false else charListLt cs ds

/-- Boolean string order used for `order_by` on text columns and
`sorted(...)` on code strings. -/
def strLe (s t : String) : Bool := !(charListLt t.data s.data)

/-- Insert an element into a sorted list, before the first strictly later
element and after earlier equals, preserving stability. -/
def insertSorted {a : Type} (le : a → a → Bool) (x : a) : List a → List a
  | [] => [x]
  | y :: ys => if le x y then x :: y :: ys else y :: insertSorted le x ys

/-- Stable sort under a total boolean preorder. Python `sorted` is a stable
sort, and all stable sorts agree on a total preorder, so this models
`sorted(..., key=...)` exactly. -/
def stableSort {a : Type} (le : a → a → Bool) : List a → List a
  | [] => []
  | x :: xs => insertSorted le x (stableSort le xs)

/- ------------------------------------------------------------------ -/
/- Data model (backend/database.py rows, JSON blobs deserialized).     -/
/- ------------------------------------------------------------------ -/

/-- Row of `applications`; `answers` is the deserialized JSON attribute bag. -/
structure Application where
  id : String
  user_id : String
  visa_type : String
  status : String
  risk_score : Int
  answers : List (String × String)
  submitted_at : Option Timestamp
  updated_at : Timestamp
deriving DecidableEq

/-- Row of `documents` (fields used by the core subsystem). -/
structure Document where
  id : String
  application_id : String
  name : String
  type : String
  verified : Bool
deriving DecidableEq

/-- Row of `officers` (only the key matters to the core subsystem). -/
structure Officer where
  id : String
deriving DecidableEq

/-- Row of `status_updates`. -/
structure StatusUpdate where
  id : String
  application_id : String
  status : String
  notes : Option String
  officer_id : Option String
  timestamp : Timestamp
deriving DecidableEq

/-- Row of `bias_reviews`. -/
structure BiasReview where
  id : String
  application_id : String
  officer_id : String
  result : String
  notes : Option String
  ai_confidence : Option Int
  audit_status : String
  reviewed_at : Timestamp
  updated_at : Timestamp
deriving DecidableEq

/-- Row of `review_audits` (immutable log entry). -/
structure ReviewAudit where
  id : String
  bias_review_id : String
  auditor_id : String
  decision_code : String
  notes : Option String
  created_at : Timestamp
deriving DecidableEq

/-- Row of `flagged_documents`. -/
structure FlaggedDocument where
  id : String
  user_id : String
  document_id : String
  application_id : String
  reason : Option String
  resolved : Bool
  resolved_at : Option Timestamp
  flag_category_id : Option ℕ
  bias_review_id : Option String
deriving DecidableEq

/-- Row of `flag_categories`. -/
structure FlagCategory where
  id : ℕ
  code : String
  label : String
  description : String
deriving DecidableEq

/-- Row of `decision_categories`. -/
structure DecisionCategory where
  id : ℕ
  code : String
  label : String
  description : String
  severity : String
deriving DecidableEq

/-- Row of `flag_decision_rules`. -/
structure FlagDecisionRule where
  id : ℕ
  flag_category_id : ℕ
  decision_id : ℕ
  requires_follow_up : Bool
deriving DecidableEq

/-- Row of `bias_monitoring_snapshots`; the `snapshot_data` JSON blob is kept
as the typed numeric aggregates the claims rely on. -/
structure Snapshot where
  id : String
  generated_at : Timestamp
  total_rejected : ℕ
  sampled_count : ℕ
  reviewed_count : ℕ
  bias_detected_count : ℕ
  bias_rate : ℚ
  window_days : Int
deriving DecidableEq

/-- Feature rule of a `bias_influence_attributes` config JSON
(`_evaluate_feature` in services/bias_monitoring.py). Optional fields keep
the `.get(key, default)` defaults explicit at evaluation time. -/
inductive FeatureConfig where
  | empty : FeatureConfig
  | riskScoreBucket (bucket : Option String) (threshold : Option Int)
      (lo : Option Int) (hi : Option Int) : FeatureConfig
  | visaType (value : Option String) : FeatureConfig
  | countryIn (path : Option String) (values : List String) : FeatureConfig
  | documentsGte (value : Option Int) : FeatureConfig
  | aiConfidenceGte (value : Option Int) : FeatureConfig
  | answerEquals (path : Option String) (value : Option String) : FeatureConfig
  | unknown : FeatureConfig
deriving DecidableEq

/-- Row of `bias_influence_attributes` with its config JSON deserialized. -/
structure InfluenceAttribute where
  id : String
  category_id : String
  label : String
  explanation : String
  feature : FeatureConfig
deriving DecidableEq

/-- Row of `bias_influence_factors`. -/
structure InfluenceFactor where
  id : String
  attribute_id : String
  coefficient : ℚ
  odds_ratio : ℚ
  sample_share : ℚ
  prevalence_weight : ℚ
  p_value : Option ℚ
  delta : ℚ
  direction : String
deriving DecidableEq, Inhabited

/-- Row of `bias_influence_models`, owning its factor rows. -/
structure InfluenceModel where
  id : String
  window_start : Timestamp
  window_end : Timestamp
  window_days : Int
  sample_size : ℕ
  auc : ℚ
  refreshed_at : Timestamp
  warnings : List String
  factors : List InfluenceFactor
deriving DecidableEq

/-- The backing store: one list per table touched by the core subsystem. -/
structure DB where
  applications : List Application
  documents : List Document
  statusUpdates : List StatusUpdate
  officers : List Officer
  biasReviews : List BiasReview
  reviewAudits : List ReviewAudit
  flaggedDocuments : List FlaggedDocument
  snapshots : List Snapshot
  influenceModels : List InfluenceModel
  influenceAttributes : List InfluenceAttribute
deriving DecidableEq

/- ------------------------------------------------------------------ -/
/- Deterministic sampler (BiasMonitoringService.get_review_sample).    -/
/- ------------------------------------------------------------------ -/

/-- Clamp of `get_review_sample`: `max(0.0, min(sample_rate or 0.0, 1.0)) or 1.0`. -/
def effectiveSampleRate (rate : ℚ) : ℚ :=
  let clamped := max 0 (min rate 1)
  if clamped = 0 then 1 else clamped

/-- Window normalization `max(1, days_back or 30)`. -/
def effectiveDaysBack (d : Int) : Int :=
  max 1 (if d = 0 then 30 else d)

/-- Applications matching `status == "rejected" and updated_at >= cutoff`,
with `cutoff = now - timedelta(days=days)`. -/
def rejectedApplications (db : DB) (now : Timestamp) (days : Int) : List Application :=
  db.applications.filter
    (fun a => a.status == "rejected" && decide (now - daysSec days ≤ a.updated_at))

/-- Hash score of `_deterministic_sample.stability_key`:
`int(sha1(f"{app.id}:{days_back}").hexdigest()[:8], 16) / 0xFFFFFFFF`.
The `sha1hex` parameter models `hashlib.sha1(...).hexdigest()`. -/
def stabilityScore (sha1hex : String → String) (appId : String) (daysBack : Int) : ℚ :=
  ((hexVal ((sha1hex (appId ++ ":" ++ toString daysBack)).take 8) : ℚ)) / 0xFFFFFFFF

/-- Ascending comparison on the stability key
`(score, app.submitted_at or datetime.min)`; a stable sort under this total
preorder reproduces Python `sorted(..., key=stability_key)`. -/
def stabilityLe (sha1hex : String → String) (daysBack : Int) (a b : Application) : Bool :=
  let sa := stabilityScore sha1hex a.id daysBack
  let sb := stabilityScore sha1hex b.id daysBack
  decide (sa < sb) || (decide (sa = sb) && decide (a.submitted_at.getD datetimeMin ≤ b.submitted_at.getD datetimeMin))

/-- `_deterministic_sample`: rank by the stability key and take a prefix. -/
def deterministic_sample (sha1hex : String → String) (applications : List Application)
    (sample_size : ℕ) (days_back : Int) : List Application :=
  (stableSort (stabilityLe sha1hex days_back) applications).take sample_size

/-- First maximal element of a list under a strict "later than" test:
the row returned by an `order_by(... .desc()).first()` query. -/
def pickMax? {a : Type} (lt : a → a → Bool) (l : List a) : Option a :=
  l.foldl
    (fun best x =>
      match best with
      | none => some x
      | some b => if lt b x then some x else some b)
    none

/-- Latest `BiasReview` for an application (`_load_latest_reviews`:
order by `reviewed_at` descending, first row wins). -/
def latestReviewFor (reviews : List BiasReview) (appId : String) : Option BiasReview :=
  pickMax? (fun b r => decide (b.reviewed_at < r.reviewed_at))
    (reviews.filter (fun r => r.application_id == appId))

/-- Latest `rejected` status-update note for an application
(`_load_rejection_notes`, with the `or "No reason provided"` defaults). -/
def rejectionNoteFor (updates : List StatusUpdate) (appId : String) : String :=
  let rejected := updates.filter (fun u => u.application_id == appId && u.status == "rejected")
  let latest := pickMax? (fun b u => decide (b.timestamp < u.timestamp)) rejected
  match latest with
  | none => "No reason provided"
  | some u => (truthyStr u.notes).getD "No reason provided"

/-- Document count per application (`_load_document_counts`). -/
def documentCountFor (documents : List Document) (appId : String) : ℕ :=
  (documents.filter (fun d => d.application_id == appId)).length

/-- One serialized case of the sampler response. -/
structure SampleCase where
  application_id : String
  applicant_name : String
  visa_type : String
  status : String
  country : String
  risk_score : Int
  documents_count : ℕ
  rejection_reason : String
  ai_confidence : ℚ
  reviewed : Bool
  review_result : Option String
  reviewed_by : Option String
  audit_status : String
deriving DecidableEq

/-- Summary statistics of the sampler response. -/
structure SampleStatistics where
  total_rejected : ℕ
  sample_size : ℕ
  reviewed_count : ℕ
  bias_detected_count : ℕ
  bias_rate : ℚ
  common_bias_patterns : List String
deriving DecidableEq

/-- Sampler response (`{"cases": ..., "statistics": ...}`). -/
structure SampleResponse where
  cases : List SampleCase
  statistics : SampleStatistics
deriving DecidableEq

/-- Increment a counter key in an insertion-ordered association list
(models `defaultdict(int)` updates preserving dict iteration order). -/
def bumpCount (counts : List (String × ℕ)) (key : String) : List (String × ℕ) :=
  match counts with
  | [] => [(key, 1)]
  | (k, v) :: rest =>
      if k == key then (k, v + 1) :: rest else (k, v) :: bumpCount rest key

/-- Key of maximal count (`sorted(items, key=count, reverse=True)[0]`;
Python sort is stable, so the first maximal key in dict order wins). -/
def topCount (counts : List (String × ℕ)) : Option (String × ℕ) :=
  pickMax? (fun b kv => decide (b.2 < kv.2)) counts

/-- `_derive_pattern_summaries` over serialized cases. -/
def derive_pattern_summaries (cases : List SampleCase) : List String :=
  let biased := cases.filter (fun c => c.review_result == some "biased")
  let countryCounts := biased.foldl (fun m c => bumpCount m c.country) []
  let visaCounts := biased.foldl (fun m c => bumpCount m c.visa_type) []
  let withCountry :=
    match topCount countryCounts with
    | some (country, n) => ["Country skew: " ++ country ++ " (" ++ toString n ++ " cases)"]
    | none => []
  let withVisa :=
    match topCount visaCounts with
    | some (visa, n) => withCountry ++ ["Visa type skew: " ++ visa ++ " (" ++ toString n ++ " cases)"]
    | none => withCountry
  if withVisa = [] then ["No significant bias patterns detected yet"] else withVisa

/-- `_build_statistics` over serialized cases. -/
def build_statistics (cases : List SampleCase) (total_rejected : ℕ) : SampleStatistics :=
  let reviewed_count := cases.countP (fun c => c.reviewed)
  let bias_count := cases.countP (fun c => c.review_result == some "biased")
  let bias_rate :=
    if reviewed_count = 0 then (0 : ℚ)
    else pyRound 2 ((bias_count : ℚ) / (reviewed_count : ℚ) * 100)
  { total_rejected := total_rejected
    sample_size := cases.length
    reviewed_count := reviewed_count
    bias_detected_count := bias_count
    bias_rate := bias_rate
    common_bias_patterns := derive_pattern_summaries cases }

/-- Serialization of one sampled application into a case payload. -/
def serializeSampleCase (db : DB) (app : Application) : SampleCase :=
  let review := latestReviewFor db.biasReviews app.id
  let documents_count := documentCountFor db.documents app.id
  let ai_confidence : ℚ :=
    match review with
    | some r =>
        match r.ai_confidence with
        | some c => (c : ℚ) / 100
        | none => (app.risk_score : ℚ) / 100
    | none => (app.risk_score : ℚ) / 100
  { application_id := app.id
    applicant_name := (app.answers.lookup "applicant_name").getD "Unknown"
    visa_type := app.visa_type
    status := app.status
    country := (app.answers.lookup "nationality").getD "Unknown"
    risk_score := app.risk_score
    documents_count := documents_count
    rejection_reason := rejectionNoteFor db.statusUpdates app.id
    ai_confidence := pyRound 3 ai_confidence
    reviewed := review.isSome
    review_result := review.map (fun r => r.result)
    reviewed_by := review.map (fun r => r.officer_id)
    audit_status := match review with | some r => r.audit_status | none => "pending_audit" }

/-- `BiasMonitoringService.get_review_sample`. -/
def get_review_sample (sha1hex : String → String) (db : DB) (sample_rate : ℚ)
    (days_back : Int) (now : Timestamp) : SampleResponse :=
  let rate := effectiveSampleRate sample_rate
  let days := effectiveDaysBack days_back
  let rejected := rejectedApplications db now days
  let total_rejected := rejected.length
  if total_rejected = 0 then
    { cases := []
      statistics :=
        { total_rejected := 0, sample_size := 0, reviewed_count := 0
          bias_detected_count := 0, bias_rate := 0, common_bias_patterns := [] } }
  else
    let sample_size := max 1 (Nat.floor ((total_rejected : ℚ) * rate))
    let selected := deterministic_sample sha1hex rejected sample_size days
    let cases := selected.map (serializeSampleCase db)
    { cases := cases, statistics := build_statistics cases total_rejected }

/-- Application ids of the sampler response, in returned order. -/
def sampleApplicationIds (sha1hex : String → String) (db : DB) (sample_rate : ℚ)
    (days_back : Int) (now : Timestamp) : List String :=
  (get_review_sample sha1hex db sample_rate days_back now).cases.map
    (fun c => c.application_id)

/- ------------------------------------------------------------------ -/
/- Snapshot cache (get_or_create_snapshot / _create_snapshot).         -/
/- ------------------------------------------------------------------ -/

/-- The freshness window `SNAPSHOT_REFRESH_HOURS = 12`. -/
def SNAPSHOT_REFRESH_HOURS : Int := 12

/-- Latest stored snapshot for a window
(`filter(window_days == ...).order_by(generated_at.desc()).first()`). -/
def latestSnapshotFor (snapshots : List Snapshot) (windowDays : Int) : Option Snapshot :=
  pickMax? (fun b s => decide (b.generated_at < s.generated_at))
    (snapshots.filter (fun s => s.window_days == windowDays))

/-- Reviews with `reviewed_at >= cutoff` used by `_create_snapshot`. -/
def reviewsSince (db : DB) (cutoff : Timestamp) : List BiasReview :=
  db.biasReviews.filter (fun r => decide (cutoff ≤ r.reviewed_at))

/-- `_create_snapshot`: compute the window aggregates and persist a new row. -/
def create_snapshot (db : DB) (days_back : Int) (now : Timestamp) (newId : String) :
    Snapshot × DB :=
  let cutoff := now - daysSec days_back
  let total_rejected := (rejectedApplications db now days_back).length
  let reviews := reviewsSince db cutoff
  let reviewed_count := reviews.length
  let bias_detected_count := reviews.countP (fun r => r.result == "biased")
  let bias_rate :=
    if reviewed_count = 0 then (0 : ℚ)
    else pyRound 2 ((bias_detected_count : ℚ) / (reviewed_count : ℚ) * 100)
  let sampled_count :=
    if total_rejected = 0 then 0
    else min total_rejected (max 1 (Nat.floor ((total_rejected : ℚ) * (1/10))))
  let snapshot : Snapshot :=
    { id := newId
      generated_at := now
      total_rejected := total_rejected
      sampled_count := sampled_count
      reviewed_count := reviewed_count
      bias_detected_count := bias_detected_count
      bias_rate := bias_rate
      window_days := days_back }
  (snapshot, { db with snapshots := db.snapshots ++ [snapshot] })

/-- `BiasMonitoringService.get_or_create_snapshot`. -/
def get_or_create_snapshot (db : DB) (days_back : Int) (now : Timestamp) (newId : String) :
    Snapshot × DB :=
  let days := effectiveDaysBack days_back
  let freshness_cutoff := now - hoursSec SNAPSHOT_REFRESH_HOURS
  match latestSnapshotFor db.snapshots days with
  | some snapshot =>
      if decide (freshness_cutoff ≤ snapshot.generated_at) then (snapshot, db)
      else create_snapshot db days now newId
  | none => create_snapshot db days now newId

/- ------------------------------------------------------------------ -/
/- Influence model trainer (_train_influence_model and helpers).       -/
/- ------------------------------------------------------------------ -/

/-- The minimum sample threshold `MIN_MODEL_SAMPLE = 5`. -/
def MIN_MODEL_SAMPLE : ℕ := 5

/-- External numeric dependencies of the trainer: scikit-learn and numpy
availability, the fitted logistic-regression coefficients, the optional AUC
scorer, the optional Wald p-value computation (scipy), and `math.exp` /
`math.sqrt`. The spec requires only the libraries' documented contract, so
they are opaque parameters. -/
structure MLBackend where
  sklearnAvailable : Bool
  numpyAvailable : Bool
  fit : List (List Bool) → List Bool → List ℚ
  aucScore : Option (List (List Bool) → List Bool → ℚ)
  pValues : List (List Bool) → List ℚ → Option (List ℚ)
  expQ : ℚ → ℚ
  sqrtQ : ℚ → ℚ

/-- `_evaluate_feature` over a deserialized feature config. -/
def evaluate_feature (cfg : FeatureConfig) (application : Option Application)
    (answers : List (String × String)) (documents_count : ℕ) (review : BiasReview) : Bool :=
  match cfg with
  | .empty => false
  | .riskScoreBucket bucket threshold lo hi =>
      let score := match application with
        | some a => a.risk_score
        | none => 0
      match bucket.getD "medium" with
      | "high" => decide (threshold.getD 70 ≤ score)
      | "low" => decide (score ≤ threshold.getD 30)
      | _ => decide (lo.getD 30 ≤ score) && decide (score < hi.getD 70)
  | .visaType value =>
      match application, value with
      | some a, some v => a.visa_type == v
      | _, _ => false
  | .countryIn path values =>
      values.contains ((answers.lookup (path.getD "nationality")).getD "Unknown")
  | .documentsGte value =>
      decide (value.getD 0 ≤ (documents_count : Int))
  | .aiConfidenceGte value =>
      decide (value.getD 80 ≤ review.ai_confidence.getD 0)
  | .answerEquals path value =>
      (path.bind (fun k => answers.lookup k)) == value
  | .unknown => false

/-- The review's application via the ORM relationship. -/
def reviewApplication (db : DB) (r : BiasReview) : Option Application :=
  db.applications.find? (fun a => a.id == r.application_id)

/-- Feature value of one attribute config on one training review
(the row construction inside `_build_feature_matrix`). -/
def reviewFeature (db : DB) (cfg : FeatureConfig) (r : BiasReview) : Bool :=
  let app := reviewApplication db r
  let answers := match app with
    | some a => a.answers
    | none => []
  let documents_count := match app with
    | some a => documentCountFor db.documents a.id
    | none => 0
  evaluate_feature cfg app answers documents_count r

/-- `_attribute_config`: the trainer's view of one catalog attribute. -/
structure AttributeConfig where
  id : String
  label : String
  feature : FeatureConfig
deriving DecidableEq

/-- Project a stored attribute row to its trainer config. -/
def attribute_config (attr : InfluenceAttribute) : AttributeConfig :=
  { id := attr.id, label := attr.label, feature := attr.feature }

/-- Reviews with `window_start <= reviewed_at <= window_end`. -/
def reviewsInWindow (db : DB) (window_start window_end : Timestamp) : List BiasReview :=
  db.biasReviews.filter
    (fun r => decide (window_start ≤ r.reviewed_at) && decide (r.reviewed_at ≤ window_end))

/-- Number of training reviews on which a feature fires (the `feature_counts`
accumulator of `_build_feature_matrix`). -/
def featureCount (db : DB) (reviews : List BiasReview) (cfg : FeatureConfig) : ℕ :=
  reviews.countP (fun r => reviewFeature db cfg r)

/-- Latest stored influence model across all windows
(`order_by(refreshed_at.desc()).first()` with no window filter). -/
def latestInfluenceModel (models : List InfluenceModel) : Option InfluenceModel :=
  pickMax? (fun b m => decide (b.refreshed_at < m.refreshed_at)) models

/-- Coefficient lookup in the `previous_factors` dict of the prior model
(last factor row with the attribute id wins, as in dict assignment). -/
def previousFactor (previous : Option InfluenceModel) (attributeId : String) :
    Option InfluenceFactor :=
  previous.bind (fun m => m.factors.reverse.find? (fun f => f.attribute_id == attributeId))

/-- An empty persisted model row (the degraded-training branches). -/
def emptyInfluenceModel (newModelId : String) (window_start window_end : Timestamp)
    (window_days : Int) (sample_size : ℕ) (warnings : List String) (now : Timestamp) :
    InfluenceModel :=
  { id := newModelId
    window_start := window_start
    window_end := window_end
    window_days := window_days
    sample_size := sample_size
    auc := 0
    refreshed_at := now
    warnings := warnings
    factors := [] }

/-- Attribute configs retained for the fit: the `active_indices` filter
`counts not in (0, len(reviews))` applied to the ordered config list. -/
def activeConfigs (db : DB) (reviews : List BiasReview) (configs : List AttributeConfig) :
    List AttributeConfig :=
  configs.filter
    (fun c =>
      let n := featureCount db reviews c.feature
      !(n == 0 || n == reviews.length))

/-- Implementation of `_train_influence_model`: train, diff against the prior
model, persist. -/
def train_influence_model (backend : MLBackend) (db : DB)
    (window_start window_end : Timestamp) (window_days : Int)
    (newModelId : String) (factorId : ℕ → String) (now : Timestamp) :
    InfluenceModel × DB :=
  let attribute_records := stableSort (fun a b => strLe a.id b.id) db.influenceAttributes
  if attribute_records.isEmpty then
    let m := emptyInfluenceModel newModelId window_start window_end window_days 0
      ["Attribute catalog is empty; unable to train influence model."] now
    (m, { db with influenceModels := db.influenceModels ++ [m] })
  else
    let reviews := reviewsInWindow db window_start window_end
    if reviews.length < MIN_MODEL_SAMPLE ∨ ¬backend.sklearnAvailable ∨ ¬backend.numpyAvailable then
      let warning_messages :=
        (if reviews.length < MIN_MODEL_SAMPLE
          then ["Insufficient reviewed cases to train influence model"] else [])
        ++ (if ¬backend.sklearnAvailable
          then ["scikit-learn not available; influence model skipped"] else [])
        ++ (if ¬backend.numpyAvailable
          then ["numpy not available; influence model skipped"] else [])
      let m := emptyInfluenceModel newModelId window_start window_end window_days
        reviews.length warning_messages now
      (m, { db with influenceModels := db.influenceModels ++ [m] })
    else
      let configs := attribute_records.map attribute_config
      let active := activeConfigs db reviews configs
      if active.isEmpty then
        let m := emptyInfluenceModel newModelId window_start window_end window_days
          reviews.length ["Feature matrix lacks variance across samples"] now
        (m, { db with influenceModels := db.influenceModels ++ [m] })
      else
        let X := reviews.map (fun r => active.map (fun c => reviewFeature db c.feature r))
        let y := reviews.map (fun r => r.result == "biased")
        let coefficients := backend.fit X y
        let auc := match backend.aucScore with
          | some score => score X y
          | none => 0
        let p_values := backend.pValues X coefficients
        let previous_model := latestInfluenceModel db.influenceModels
        let factors := active.enum.map
          (fun pair =>
            let idx := pair.1
            let cfg := pair.2
            let coefficient := coefficients.getD idx 0
            let occurrences := featureCount db reviews cfg.feature
            let sample_share := (occurrences : ℚ) / (reviews.length : ℚ)
            let p_value := match p_values with
              | some l => some (l.getD idx 0)
              | none => none
            let delta := coefficient -
              (match previousFactor previous_model cfg.id with
               | some f => f.coefficient
               | none => 0)
            { id := factorId idx
              attribute_id := cfg.id
              coefficient := coefficient
              odds_ratio := backend.expQ coefficient
              sample_share := sample_share
              prevalence_weight := backend.sqrtQ sample_share
              p_value := p_value
              delta := delta
              direction := if 0 ≤ coefficient then "driver" else "buffer" })
        let m : InfluenceModel :=
          { id := newModelId
            window_start := window_start
            window_end := window_end
            window_days := window_days
            sample_size := reviews.length
            auc := auc
            refreshed_at := now
            warnings := []
            factors := factors }
        (m, { db with influenceModels := db.influenceModels ++ [m] })

/- ------------------------------------------------------------------ -/
/- Flag/decision catalog seeding (utils.seed_flag_catalog) and the     -/
/- compatibility matrix (services/review_flags.get_flag_catalog).      -/
/- ------------------------------------------------------------------ -/

/-- Catalog tables touched by `seed_flag_catalog`. -/
structure CatalogState where
  flagCategories : List FlagCategory
  decisionCategories : List DecisionCategory
  rules : List FlagDecisionRule
deriving DecidableEq

/-- `categories_seed` entries `(code, label, description)`. -/
def categories_seed : List (String × String × String) :=
  [ ("document_gap", "Document Gap",
     "Missing, expired, or incomplete applicant documentation."),
    ("identity_mismatch", "Identity Mismatch",
     "Inconsistent identity attributes across documents or suspected identity fraud."),
    ("document_authenticity", "Document Authenticity",
     "Potential tampering or unverifiable document security features."),
    ("financial_concern", "Financial Concern",
     "Questions around funding sources, income stability, or affordability thresholds."),
    ("travel_intent_risk", "Travel Intent Risk",
     "Purpose of travel, itinerary, or sponsorship details appear inconsistent."),
    ("compliance_alert", "Compliance Alert",
     "Potential regulatory, sanctions, or security-list conflicts requiring escalation.") ]

/-- `decisions_seed` entries `(code, label, description, severity)`. -/
def decisions_seed : List (String × String × String × String) :=
  [ ("clear_to_proceed", "Clear to Proceed",
     "Senior reviewer confirms the flag is resolved with no further action.", "low"),
    ("request_clarification", "Request Clarification",
     "Ask the frontline officer for additional narrative context before closing.", "medium"),
    ("request_additional_docs", "Request Additional Documents",
     "Require the applicant to supply specific evidence before progressing.", "medium"),
    ("issue_conditional_approval", "Issue Conditional Approval",
     "Allow the case to move forward with monitoring conditions noted.", "medium"),
    ("escalate_to_policy", "Escalate to Policy",
     "Engage policy or legal experts for interpretation before a final decision.", "high"),
    ("escalate_to_security", "Escalate to Security & Compliance",
     "Transfer to security/compliance specialists for immediate risk handling.", "critical"),
    ("overturn_flag", "Overturn Flag",
     "Senior reviewer disagrees with the flag and clears it from the record.", "low"),
    ("refer_for_training", "Refer for Training",
     "Flag indicates a coaching opportunity for frontline reviewers.", "low") ]

/-- `compatibility_seed`: `((flag_code, decision_code), requires_follow_up)`
in the dict's insertion order. -/
def compatibility_seed : List ((String × String) × Bool) :=
  [ (("document_gap", "clear_to_proceed"), false),
    (("document_gap", "request_clarification"), false),
    (("document_gap", "request_additional_docs"), true),
    (("document_gap", "issue_conditional_approval"), false),
    (("document_gap", "overturn_flag"), false),
    (("document_gap", "refer_for_training"), false),
    (("identity_mismatch", "clear_to_proceed"), false),
    (("identity_mismatch", "request_additional_docs"), true),
    (("identity_mismatch", "request_clarification"), false),
    (("identity_mismatch", "escalate_to_policy"), false),
    (("identity_mismatch", "escalate_to_security"), false),
    (("identity_mismatch", "overturn_flag"), false),
    (("identity_mismatch", "refer_for_training"), false),
    (("document_authenticity", "clear_to_proceed"), false),
    (("document_authenticity", "request_additional_docs"), true),
    (("document_authenticity", "escalate_to_policy"), false),
    (("document_authenticity", "escalate_to_security"), false),
    (("financial_concern", "clear_to_proceed"), false),
    (("financial_concern", "request_clarification"), false),
    (("financial_concern", "request_additional_docs"), true),
    (("financial_concern", "issue_conditional_approval"), false),
    (("financial_concern", "escalate_to_policy"), false),
    (("financial_concern", "refer_for_training"), false),
    (("travel_intent_risk", "clear_to_proceed"), false),
    (("travel_intent_risk", "request_clarification"), false),
    (("travel_intent_risk", "request_additional_docs"), true),
    (("travel_intent_risk", "issue_conditional_approval"), false),
    (("travel_intent_risk", "escalate_to_policy"), false),
    (("travel_intent_risk", "overturn_flag"), false),
    (("travel_intent_risk", "refer_for_training"), false),
    (("compliance_alert", "clear_to_proceed"), false),
    (("compliance_alert", "escalate_to_policy"), false),
    (("compliance_alert", "escalate_to_security"), false),
    (("compliance_alert", "overturn_flag"), false) ]

/-- Next autoincrement id (one above the current maximum). -/
def nextFreeId (ids : List ℕ) : ℕ := ids.foldl max 0 + 1

/-- Category upsert loop of `seed_flag_catalog`: update matched codes in
place, insert the rest. -/
def upsertCategories (cats : List FlagCategory) (seed : List (String × String × String)) :
    List FlagCategory :=
  seed.foldl
    (fun acc entry =>
      let code := entry.1
      let label := entry.2.1
      let description := entry.2.2
      if acc.any (fun c => c.code == code) then
        acc.map (fun c =>
          if c.code == code then { c with label := label, description := description } else c)
      else
        acc ++ [{ id := nextFreeId (acc.map (fun c => c.id)), code := code,
                  label := label, description := description }])
    cats

/-- Decision upsert loop of `seed_flag_catalog`. -/
def upsertDecisions (decs : List DecisionCategory)
    (seed : List (String × String × String × String)) : List DecisionCategory :=
  seed.foldl
    (fun acc entry =>
      let code := entry.1
      let label := entry.2.1
      let description := entry.2.2.1
      let severity := entry.2.2.2
      if acc.any (fun d => d.code == code) then
        acc.map (fun d =>
          if d.code == code then
            { d with label := label, description := description, severity := severity }
          else d)
      else
        acc ++ [{ id := nextFreeId (acc.map (fun d => d.id)), code := code,
                  label := label, description := description, severity := severity }])
    decs

/-- Codes of a stored rule via the joins on its foreign keys (rules whose
keys do not resolve are dropped by the SQL inner join). -/
def ruleCodes (cats : List FlagCategory) (decs : List DecisionCategory)
    (rule : FlagDecisionRule) : Option (String × String) :=
  match cats.find? (fun c => c.id == rule.flag_category_id),
        decs.find? (fun d => d.id == rule.decision_id) with
  | some c, some d => some (c.code, d.code)
  | _, _ => none

/-- Reconciliation of `seed_flag_catalog` over the rule rows: joined rules
matching a seeded pair are updated in place, joined rules outside the seed
are deleted, unjoined rules are untouched, and seeded pairs with no stored
rule are inserted in seed order with fresh ids. -/
def reconcileRules (cats : List FlagCategory) (decs : List DecisionCategory)
    (rules : List FlagDecisionRule) : List FlagDecisionRule :=
  let seedKeys := compatibility_seed.map (fun e => e.1)
  let kept := rules.filterMap
    (fun r =>
      match ruleCodes cats decs r with
      | none => some r
      | some key =>
          match compatibility_seed.lookup key with
          | some follow => some { r with requires_follow_up := follow }
          | none => none)
  let matchedKeys := rules.filterMap (fun r =>
    (ruleCodes cats decs r).bind (fun key => if seedKeys.contains key then some key else none))
  let pending := compatibility_seed.filter (fun e => !(matchedKeys.contains e.1))
  let inserted := (pending.enum.filterMap
    (fun pair =>
      let key := pair.2.1
      let follow := pair.2.2
      match cats.find? (fun c => c.code == key.1), decs.find? (fun d => d.code == key.2) with
      | some c, some d =>
          some { id := nextFreeId (kept.map (fun r => r.id)) + pair.1,
                 flag_category_id := c.id, decision_id := d.id,
                 requires_follow_up := follow }
      | _, _ => none))
  kept ++ inserted

/-- `seed_flag_catalog` over the catalog tables. -/
def seed_flag_catalog (st : CatalogState) : CatalogState :=
  let cats := upsertCategories st.flagCategories categories_seed
  let decs := upsertDecisions st.decisionCategories decisions_seed
  { flagCategories := cats
    decisionCategories := decs
    rules := reconcileRules cats decs st.rules }

/-- The empty catalog (main.py deletes the database file before seeding). -/
def emptyCatalog : CatalogState :=
  { flagCategories := [], decisionCategories := [], rules := [] }

/-- The catalog produced by seeding the fresh database. -/
def seededCatalog : CatalogState := seed_flag_catalog emptyCatalog

/-- One decision entry of the compatibility matrix. -/
structure MatrixEntry where
  code : String
  label : String
  requiresFollowUp : Bool
  severity : String
  description : String
deriving DecidableEq

/-- Append an entry under a flag-category key, preserving first-introduction
key order (`matrix.setdefault(code, []).append(entry)`). -/
def matrixInsert (m : List (String × List MatrixEntry)) (key : String) (e : MatrixEntry) :
    List (String × List MatrixEntry) :=
  match m with
  | [] => [(key, [e])]
  | (k, es) :: rest =>
      if k == key then (k, es ++ [e]) :: rest else (k, es) :: matrixInsert rest key e

/-- The matrix of `get_flag_catalog`: one row per flag-category code, each
row sorted by decision code. -/
def get_flag_catalog_matrix (st : CatalogState) : List (String × List MatrixEntry) :=
  let unsorted := st.rules.foldl
    (fun m r =>
      match st.flagCategories.find? (fun c => c.id == r.flag_category_id),
            st.decisionCategories.find? (fun d => d.id == r.decision_id) with
      | some c, some d =>
          matrixInsert m c.code
            { code := d.code, label := d.label, requiresFollowUp := r.requires_follow_up,
              severity := d.severity, description := d.description }
      | _, _ => m)
    []
  unsorted.map (fun row => (row.1, stableSort (fun a b => strLe a.code b.code) row.2))

/-- One row of the matrix (missing categories give an empty row). -/
def matrixRow (st : CatalogState) (code : String) : List MatrixEntry :=
  ((get_flag_catalog_matrix st).lookup code).getD []

/- ------------------------------------------------------------------ -/
/- Audit workflow state machine (routes/review_audit.py).              -/
/- ------------------------------------------------------------------ -/

/-- `ALLOWED_DECISIONS`. -/
def ALLOWED_DECISIONS : List String :=
  [ "clear_to_proceed", "request_clarification", "request_additional_docs",
    "issue_conditional_approval", "escalate_to_policy", "escalate_to_security",
    "overturn_flag", "refer_for_training" ]

/-- `DECISION_NORMALIZATION` synonym table. -/
def DECISION_NORMALIZATION : List (String × String) :=
  [ ("clear_to_proceed", "clear_to_proceed"),
    ("validated", "clear_to_proceed"),
    ("request_clarification", "request_clarification"),
    ("request_additional_docs", "request_additional_docs"),
    ("request_more_docs", "request_additional_docs"),
    ("issue_conditional_approval", "issue_conditional_approval"),
    ("escalate_to_policy", "escalate_to_policy"),
    ("escalated", "escalate_to_policy"),
    ("escalate_policy", "escalate_to_policy"),
    ("escalate_to_security", "escalate_to_security"),
    ("escalate_security", "escalate_to_security"),
    ("overturn_flag", "overturn_flag"),
    ("overturned", "overturn_flag"),
    ("refer_for_training", "refer_for_training"),
    ("training_needed", "refer_for_training") ]

/-- Modelled from the spec: the constant `FLAG_AUDITED_STATUS` imported by
routes/review_audit.py from routes/applications.py is absent from the
provided sources; the spec and the repository's tests fix its value as the
`flagged_for_review` application status. -/
def FLAG_AUDITED_STATUS : String := "flagged_for_review"

/-- Request body of the decision endpoint. -/
structure DecisionPayload where
  decision_code : Option String
  decision : Option String
  auditor_id : Option String
  notes : Option String
deriving DecidableEq

/-- `payload.get("decision_code") or payload.get("decision")`, with the
subsequent `if not raw_decision` truthiness check folded in. -/
def rawDecision (p : DecisionPayload) : Option String :=
  truthyStr (pyOrStr p.decision_code p.decision)

/-- Lower-case the raw value and map it through the synonym table. -/
def normalizedDecision (p : DecisionPayload) : Option String :=
  (rawDecision p).bind (fun s => DECISION_NORMALIZATION.lookup (pyLower s))

/-- Validation phase of `submit_review_audit_decision`: every check runs
before the first write. Returns the target review, the normalized decision,
and the auditor id. -/
def audit_validate (db : DB) (review_id : String) (p : DecisionPayload) :
    Except (ℕ × String) (BiasReview × String × String) :=
  match db.biasReviews.find? (fun r => r.id == review_id) with
  | none => .error (404, "Bias review not found")
  | some review =>
      match rawDecision p with
      | none => .error (400, "Decision value is required")
      | some _ =>
          match normalizedDecision p with
          | none => .error (400, "Invalid decision value")
          | some d =>
              if ¬(ALLOWED_DECISIONS.contains d) then .error (400, "Invalid decision value")
              else
                match p.auditor_id with
                | none => .error (404, "Auditing officer not found")
                | some aid =>
                    if db.officers.any (fun o => o.id == aid) then .ok (review, d, aid)
                    else .error (404, "Auditing officer not found")

/-- Escalation status notes appended for overturn and escalation decisions. -/
def escalationUpdates (d : String) (application_id : String) (aid : String)
    (now : Timestamp) (sid : String) : List StatusUpdate :=
  if d == "overturn_flag" then
    [{ id := sid, application_id := application_id, status := "audit_overturned",
       notes := some "Senior officer overturned the bias review. Re-open application.",
       officer_id := some aid, timestamp := now }]
  else if d == "escalate_to_policy" then
    [{ id := sid, application_id := application_id, status := "audit_escalated_policy",
       notes := some "Senior officer escalated the bias review for policy follow-up.",
       officer_id := some aid, timestamp := now }]
  else if d == "escalate_to_security" then
    [{ id := sid, application_id := application_id, status := "audit_escalated_security",
       notes := some "Senior officer escalated the bias review to security & compliance.",
       officer_id := some aid, timestamp := now }]
  else []

/-- Document requirements table of routes/applications.py. -/
structure DocRequirements where
  mandatory : List String
  optionalDocs : List String
deriving DecidableEq

/-- `DOCUMENT_REQUIREMENTS` by visa type. -/
def DOCUMENT_REQUIREMENTS : List (String × DocRequirements) :=
  [ ("tourist", { mandatory := ["passport", "photo", "bank_statement"],
                  optionalDocs := ["travel_insurance", "flight_itinerary"] }),
    ("business", { mandatory := ["passport", "photo", "invitation_letter"],
                   optionalDocs := ["employment_letter", "bank_statement"] }),
    ("student", { mandatory := ["passport", "photo", "invitation_letter", "bank_statement"],
                  optionalDocs := ["employment_letter"] }),
    ("work", { mandatory := ["passport", "photo", "employment_letter", "invitation_letter"],
               optionalDocs := ["bank_statement"] }),
    ("family_visit", { mandatory := ["passport", "photo", "invitation_letter"],
                       optionalDocs := ["bank_statement", "employment_letter"] }),
    ("transit", { mandatory := ["passport", "photo", "flight_itinerary"],
                  optionalDocs := [] }) ]

/-- Whether the application's verified documents cover every mandatory type
(`check_document_requirements(...)["requirements_met"]`). -/
def requirementsMet (db : DB) (application_id : String) (visa_type : String) : Bool :=
  let req := (DOCUMENT_REQUIREMENTS.lookup visa_type).getD
    { mandatory := [], optionalDocs := [] }
  let uploadedTypes := (db.documents.filter
    (fun d => d.application_id == application_id && d.verified)).map (fun d => d.type)
  (req.mandatory.filter (fun t => !(uploadedTypes.contains t))).isEmpty

/-- `determine_application_status` of routes/applications.py. -/
def determine_application_status (db : DB) (application_id : String) (visa_type : String) :
    String :=
  let met := requirementsMet db application_id visa_type
  match db.applications.find? (fun a => a.id == application_id) with
  | none => "submitted"
  | some app =>
      if app.status == "submitted" && !met then "document_collection"
      else if (app.status == "submitted" || app.status == "document_collection") && met then
        "document_review"
      else app.status

/-- Write phase of `submit_review_audit_decision`: append the immutable
audit row, set the review status, append escalation notes, then re-evaluate
the parent application's flags and status. -/
def audit_apply (db : DB) (review : BiasReview) (d aid : String) (notes : Option String)
    (now : Timestamp) (auditId sid1 sid2 : String) : DB :=
  let audit : ReviewAudit :=
    { id := auditId, bias_review_id := review.id, auditor_id := aid,
      decision_code := d, notes := notes, created_at := now }
  let db1 := { db with reviewAudits := db.reviewAudits ++ [audit] }
  let updatedReviews := db1.biasReviews.map
    (fun r => if r.id == review.id then { r with audit_status := d, updated_at := now } else r)
  let db2 := { db1 with biasReviews := updatedReviews }
  let db3 := { db2 with statusUpdates :=
    db2.statusUpdates ++ escalationUpdates d review.application_id aid now sid1 }
  match db3.applications.find? (fun a => a.id == review.application_id) with
  | none => db3
  | some app =>
      let active := db3.flaggedDocuments.filter
        (fun f => f.bias_review_id == some review.id && !f.resolved)
      if !active.isEmpty then
        if app.status ≠ FLAG_AUDITED_STATUS then
          let apps := db3.applications.map
            (fun a => if a.id == app.id then
              { a with status := FLAG_AUDITED_STATUS, updated_at := now } else a)
          let note : StatusUpdate :=
            { id := sid2, application_id := app.id, status := FLAG_AUDITED_STATUS,
              notes := some ("Senior audit decision recorded: " ++ d ++ "."),
              officer_id := some aid, timestamp := now }
          { db3 with applications := apps, statusUpdates := db3.statusUpdates ++ [note] }
        else db3
      else
        let next := determine_application_status db3 app.id app.visa_type
        if next ≠ "" ∧ app.status ≠ next then
          let apps := db3.applications.map
            (fun a => if a.id == app.id then
              { a with status := next, updated_at := now } else a)
          let note : StatusUpdate :=
            { id := sid2, application_id := app.id, status := next,
              notes := some ("Application status updated after audit: " ++ next ++ "."),
              officer_id := some aid, timestamp := now }
          { db3 with applications := apps, statusUpdates := db3.statusUpdates ++ [note] }
        else db3

/-- `submit_review_audit_decision`: validate, then write. -/
def submit_review_audit_decision (db : DB) (review_id : String) (p : DecisionPayload)
    (now : Timestamp) (auditId sid1 sid2 : String) : Except (ℕ × String) DB :=
  match audit_validate db review_id p with
  | .error e => .error e
  | .ok (review, d, aid) => .ok (audit_apply db review d aid p.notes now auditId sid1 sid2)

/- ------------------------------------------------------------------ -/
/- Review submission (BiasMonitoringService.submit_review).            -/
/- ------------------------------------------------------------------ -/

/-- Request body of the review-submission endpoint. -/
structure ReviewSubmission where
  result : Option String
  notes : Option String
  officer_id : Option String
  ai_confidence : Option Int
deriving DecidableEq

/-- `BiasMonitoringService.submit_review`: upsert the latest bias review of
a rejected application, resetting its audit status to pending. -/
def submit_review (db : DB) (application_id : String) (rd : ReviewSubmission)
    (now : Timestamp) (newReviewId newStatusId : String) : Except (ℕ × String) DB :=
  match db.applications.find? (fun a => a.id == application_id) with
  | none => .error (404, "Application not found")
  | some app =>
      if app.status ≠ "rejected" then .error (400, "Can only review rejected applications")
      else
        let officerOk := match truthyStr rd.officer_id with
          | some oid => db.officers.any (fun o => o.id == oid)
          | none => true
        if !officerOk then .error (404, "Reviewing officer not found")
        else
          let biasNote : StatusUpdate :=
            { id := newStatusId, application_id := application_id,
              status := "bias_review",
              notes := some ("Potential bias detected in rejection: " ++ rd.notes.getD "None"),
              officer_id := truthyStr rd.officer_id, timestamp := now }
          let withBiasNote (base : DB) : DB :=
            if rd.result == some "biased" then
              { base with statusUpdates := base.statusUpdates ++ [biasNote] }
            else base
          match latestReviewFor db.biasReviews application_id with
          | some existing =>
              let updated : BiasReview :=
                { existing with
                  result := rd.result.getD existing.result
                  notes := match rd.notes with
                    | some n => some n
                    | none => existing.notes
                  officer_id := match truthyStr rd.officer_id with
                    | some oid => oid
                    | none => existing.officer_id
                  ai_confidence := match rd.ai_confidence with
                    | some c => some c
                    | none => existing.ai_confidence
                  reviewed_at := now
                  audit_status := "pending"
                  updated_at := now }
              let reviews := db.biasReviews.map
                (fun r => if r.id == existing.id then updated else r)
              .ok (withBiasNote { db with biasReviews := reviews })
          | none =>
              match truthyStr rd.officer_id with
              | none => .error (400, "Officer ID is required for new reviews")
              | some oid =>
                  let created : BiasReview :=
                    { id := newReviewId, application_id := application_id,
                      officer_id := oid, result := rd.result.getD "",
                      notes := rd.notes, ai_confidence := rd.ai_confidence,
                      audit_status := "pending", reviewed_at := now, updated_at := now }
                  .ok (withBiasNote
                    { db with biasReviews := db.biasReviews ++ [created] })

/- ------------------------------------------------------------------ -/
/- Refinement definition taken from the spec's wording, for comparison -/
/- with the implementation's previous-model lookup.                    -/
/- ------------------------------------------------------------------ -/

/-- Stated from the spec's words, not the code: the "immediately preceding
model for the same window" that the spec says the delta is diffed against. -/
def specLatestModelForWindow (models : List InfluenceModel) (windowDays : Int) :
    Option InfluenceModel :=
  pickMax? (fun b m => decide (b.refreshed_at < m.refreshed_at))
    (models.filter (fun m => m.window_days == windowDays))

/- ------------------------------------------------------------------ -/
/- Concrete fixtures used to witness the theorems below.               -/
/- ------------------------------------------------------------------ -/

/-- A concrete stand-in for `hashlib.sha1(...).hexdigest()`. -/
def constHash : String → String := fun _ => "00000000"

/-- The empty store. -/
def emptyDB : DB :=
  { applications := [], documents := [], statusUpdates := [], officers := [],
    biasReviews := [], reviewAudits := [], flaggedDocuments := [], snapshots := [],
    influenceModels := [], influenceAttributes := [] }

/-- A rejected demo application. -/
def demoApplication (i : String) (t : Timestamp) : Application :=
  { id := i, user_id := "user", visa_type := "tourist", status := "rejected",
    risk_score := 50, answers := [("nationality", "Testonia"), ("applicant_name", "Test")],
    submitted_at := some t, updated_at := 0 }

/-- Store with two recent rejected applications. -/
def twoRejectedDB : DB :=
  { emptyDB with applications := [demoApplication "A" 1, demoApplication "B" 2] }

/-- Application under audit (documents incomplete, review stage). -/
def auditApplication : Application :=
  { demoApplication "APP" 0 with status := "document_review" }

/-- Pending bias review of the audited application. -/
def pendingReview : BiasReview :=
  { id := "REV", application_id := "APP", officer_id := "off", result := "uncertain",
    notes := none, ai_confidence := none, audit_status := "pending",
    reviewed_at := 0, updated_at := 0 }

/-- Unresolved flag attached to the pending review. -/
def activeFlag : FlaggedDocument :=
  { id := "FLG", user_id := "user", document_id := "DOC", application_id := "APP",
    reason := some "gap", resolved := false, resolved_at := none,
    flag_category_id := some 1, bias_review_id := some "REV" }

/-- Store holding the audited application, its review, its flag, an auditor. -/
def auditDB : DB :=
  { emptyDB with
    applications := [auditApplication], officers := [{ id := "aud" }],
    biasReviews := [pendingReview], flaggedDocuments := [activeFlag] }

/-- A well-formed decision payload. -/
def auditPayload : DecisionPayload :=
  { decision_code := some "request_additional_docs", decision := none,
    auditor_id := some "aud", notes := some "n" }

/-- Review already closed by a prior audit decision. -/
def auditedReview : BiasReview := { pendingReview with audit_status := "clear_to_proceed" }

/-- The prior audit row behind `auditedReview`. -/
def priorAudit : ReviewAudit :=
  { id := "OLD", bias_review_id := "REV", auditor_id := "aud",
    decision_code := "clear_to_proceed", notes := none, created_at := 5 }

/-- Store for re-submitting a review over a terminal audit status. -/
def resubmitDB : DB :=
  { emptyDB with
    applications := [demoApplication "APP" 0], officers := [{ id := "aud" }],
    biasReviews := [auditedReview], reviewAudits := [priorAudit] }

/-- A fresh review submission. -/
def resubmission : ReviewSubmission :=
  { result := some "justified", notes := none, officer_id := some "aud", ai_confidence := none }

/-- Catalog attribute whose feature fires on answer `k = v`. -/
def attrVaried : InfluenceAttribute :=
  { id := "attrA", category_id := "cat", label := "A", explanation := "",
    feature := .answerEquals (some "k") (some "v") }

/-- Catalog attribute whose feature never fires on the fixture data. -/
def attrConstant : InfluenceAttribute :=
  { id := "attrConst", category_id := "cat", label := "C", explanation := "",
    feature := .answerEquals (some "z") (some "never") }

/-- Training application, optionally carrying the answer `k = v`. -/
def trainApp (i : String) (hasK : Bool) : Application :=
  { id := "P" ++ i, user_id := "user", visa_type := "t", status := "rejected",
    risk_score := 0, answers := if hasK then [("k", "v")] else [],
    submitted_at := none, updated_at := 0 }

/-- Training review of application `P<i>`, reviewed inside the window. -/
def trainReview (i : String) (biased : Bool) : BiasReview :=
  { id := "R" ++ i, application_id := "P" ++ i, officer_id := "off",
    result := if biased then "biased" else "justified", notes := none,
    ai_confidence := none, audit_status := "pending", reviewed_at := 10, updated_at := 10 }

/-- A stored influence model with one factor for `attrA`. -/
def priorModel (mid : String) (wd : Int) (t : Timestamp) (coefA : ℚ) : InfluenceModel :=
  { id := mid, window_start := 0, window_end := 0, window_days := wd, sample_size := 5,
    auc := 0, refreshed_at := t, warnings := [],
    factors := [{ id := mid ++ "f", attribute_id := "attrA", coefficient := coefA,
                  odds_ratio := 1, sample_share := 0, prevalence_weight := 0,
                  p_value := none, delta := 0, direction := "driver" }] }

/-- Concrete ML backend: libraries available, the classifier returns a single
coefficient of 10, no AUC scorer, no scipy p-values. -/
def demoBackend : MLBackend :=
  { sklearnAvailable := true, numpyAvailable := true,
    fit := fun _ _ => [10], aucScore := none, pValues := fun _ _ => none,
    expQ := fun _ => 0, sqrtQ := fun _ => 0 }

/-- Factor id generator of the fixtures. -/
def demoFactorId : ℕ → String := fun i => "F" ++ toString i

/-- Training store: five reviewed rejections (two firing `attrA`), a model
for window 30 (coefficient 5) refreshed before a model for window 7
(coefficient 3), and the two catalog attributes. -/
def deltaDB : DB :=
  { emptyDB with
    applications := [trainApp "1" true, trainApp "2" true, trainApp "3" false,
                     trainApp "4" false, trainApp "5" false],
    biasReviews := [trainReview "1" true, trainReview "2" false, trainReview "3" true,
                    trainReview "4" false, trainReview "5" false],
    influenceModels := [priorModel "M1" 30 100 5, priorModel "M2" 7 200 3],
    influenceAttributes := [attrVaried, attrConstant] }

/-- Training store with an empty attribute catalog and two reviews. -/
def noCatalogDB : DB :=
  { deltaDB with
    influenceAttributes := [],
    biasReviews := [trainReview "1" true, trainReview "2" false] }

/-- Training store with a non-empty catalog and only two reviews. -/
def fewReviewsDB : DB :=
  { deltaDB with biasReviews := [trainReview "1" true, trainReview "2" false] }

/-- A stale snapshot for window 30, generated at time zero. -/
def staleSnapshot : Snapshot :=
  { id := "S_OLD", generated_at := 0, total_rejected := 0, sampled_count := 0,
    reviewed_count := 0, bias_detected_count := 0, bias_rate := 0, window_days := 30 }

/-- Store holding only the stale snapshot. -/
def staleSnapshotDB : DB := { emptyDB with snapshots := [staleSnapshot] }

/-- Payload with an unrecognized decision code. -/
def bogusPayload : DecisionPayload := { auditPayload with decision_code := some "bogus" }

/-- Payload naming an unknown auditor. -/
def ghostPayload : DecisionPayload := { auditPayload with auditor_id := some "ghost" }

/-- Payload using the legacy upper-cased synonym `VALIDATED`. -/
def legacyPayload : DecisionPayload := { auditPayload with decision_code := some "VALIDATED" }

/-- The store after the fixture audit decision is recorded. -/
def auditResultDB : DB :=
  match submit_review_audit_decision auditDB "REV" auditPayload 100 "AUD1" "S1" "S2" with
  | .ok d => d
  | .error _ => auditDB

/-- The store after the fixture review resubmission. -/
def resubmitResultDB : DB :=
  match submit_review resubmitDB "APP" resubmission 50 "NR" "NS" with
  | .ok d => d
  | .error _ => resubmitDB

/- ------------------------------------------------------------------ -/
/- Shared lemmas.                                                      -/
/- ------------------------------------------------------------------ -/

/-- Inserting adds one to the length. -/
theorem length_insertSorted {a : Type} (le : a → a → Bool) (x : a) :
    ∀ l : List a, (insertSorted le x l).length = l.length + 1 := by
  intro l
  induction l with
  | nil => rfl
  | cons y ys ih =>
      simp only [insertSorted]
      by_cases h : le x y = true
      · simp [h]
      · simp [h, ih]

/-- Sorting preserves the length. -/
theorem length_stableSort {a : Type} (le : a → a → Bool) :
    ∀ l : List a, (stableSort le l).length = l.length := by
  intro l
  induction l with
  | nil => rfl
  | cons x xs ih => simp [stableSort, length_insertSorted, ih]

/-- Membership in an insertion. -/
theorem mem_insertSorted {a : Type} (le : a → a → Bool) (x y : a) :
    ∀ l : List a, (y ∈ insertSorted le x l ↔ y = x ∨ y ∈ l) := by
  intro l
  induction l with
  | nil => simp [insertSorted]
  | cons z zs ih =>
      simp only [insertSorted]
      by_cases h : le x z = true
      · rw [if_pos h]
        simp [List.mem_cons]
      · rw [if_neg h]
        simp only [List.mem_cons, ih]
        tauto

/-- Sorting preserves membership. -/
theorem mem_stableSort {a : Type} (le : a → a → Bool) (y : a) :
    ∀ l : List a, (y ∈ stableSort le l ↔ y ∈ l) := by
  intro l
  induction l with
  | nil => simp [stableSort]
  | cons x xs ih =>
      simp only [stableSort, mem_insertSorted, List.mem_cons, ih]

/-- A successful association-list lookup returns one of the stored values. -/
theorem lookup_mem_values {a b : Type} [BEq a] :
    ∀ (l : List (a × b)) (k : a) (v : b), l.lookup k = some v → v ∈ l.map Prod.snd := by
  intro l
  induction l with
  | nil => intro k v h; simp [List.lookup] at h
  | cons p t ih =>
      intro k v h
      simp only [List.lookup] at h
      cases hk : k == p.1 with
      | true =>
          rw [hk] at h
          have h2 : some p.2 = some v := h
          have h3 : p.2 = v := Option.some.inj h2
          subst h3
          exact List.mem_cons_self _ _
      | false =>
          rw [hk] at h
          have h2 : List.lookup k t = some v := h
          exact List.mem_cons_of_mem _ (ih k v h2)

/-- A pickMax? fold starting from a chosen element returns it or a member. -/
theorem foldl_pickMax_mem {a : Type} (lt : a → a → Bool) :
    ∀ (l : List a) (b c : a),
      (l.foldl
        (fun best x =>
          match best with
          | none => some x
          | some w => if lt w x then some x else some w)
        (some b)) = some c → c = b ∨ c ∈ l := by
  intro l
  induction l with
  | nil =>
      intro b c h
      simp only [List.foldl_nil, Option.some.injEq] at h
      exact Or.inl h.symm
  | cons x xs ih =>
      intro b c h
      simp only [List.foldl_cons] at h
      by_cases hlt : lt b x = true
      · rw [if_pos hlt] at h
        rcases ih x c h with h1 | h1
        · exact Or.inr (h1 ▸ List.mem_cons_self x xs)
        · exact Or.inr (List.mem_cons_of_mem x h1)
      · rw [if_neg hlt] at h
        rcases ih b c h with h1 | h1
        · exact Or.inl h1
        · exact Or.inr (List.mem_cons_of_mem x h1)

/-- pickMax? returns a member of the list. -/
theorem pickMax?_mem {a : Type} (lt : a → a → Bool) :
    ∀ (l : List a) (c : a), pickMax? lt l = some c → c ∈ l := by
  intro l c h
  cases l with
  | nil => simp [pickMax?] at h
  | cons x xs =>
      simp only [pickMax?, List.foldl_cons] at h
      rcases foldl_pickMax_mem lt xs x c h with h1 | h1
      · exact h1 ▸ List.mem_cons_self x xs
      · exact List.mem_cons_of_mem x h1

/-- find? over an id-keyed replacement map returns the replacement whenever
some element matches the key. -/
theorem find?_map_replace {a : Type} (key : a → String) (tgt : String) (u : a)
    (hu : (key u == tgt) = true) :
    ∀ l : List a, (∃ x ∈ l, (key x == tgt) = true) →
      (l.map (fun x => if key x == tgt then u else x)).find? (fun x => key x == tgt)
        = some u := by
  intro l
  induction l with
  | nil => intro h; simp at h
  | cons x xs ih =>
      intro h
      cases hx : key x == tgt with
      | true =>
          have hfx : (if (key x == tgt) = true then u else x) = u := if_pos hx
          rw [List.map_cons, hfx]
          simp only [List.find?_cons, hu]
      | false =>
          have hfx : (if (key x == tgt) = true then u else x) = x := if_neg (by simp [hx])
          rw [List.map_cons, hfx]
          simp only [List.find?_cons, hx]
          apply ih
          rcases h with ⟨y, hy, hky⟩
          rcases List.mem_cons.1 hy with rfl | hy2
          · rw [hky] at hx
            cases hx
          · exact ⟨y, hy2, hky⟩

/-- find? over an id-preserving in-place update commutes with the update. -/
theorem find?_map_update {a : Type} (key : a → String) (tgt : String) (g : a → a)
    (hg : ∀ x, key (g x) = key x) :
    ∀ l : List a,
      (l.map (fun x => if key x == tgt then g x else x)).find? (fun x => key x == tgt)
        = (l.find? (fun x => key x == tgt)).map g := by
  intro l
  induction l with
  | nil => rfl
  | cons x xs ih =>
      cases hx : key x == tgt with
      | true =>
          have hgx : (key (g x) == tgt) = true := by rw [hg x]; exact hx
          have hfx : (if (key x == tgt) = true then g x else x) = g x := if_pos hx
          rw [List.map_cons, hfx]
          simp only [List.find?_cons, hgx, hx]
          rfl
      | false =>
          have hfx : (if (key x == tgt) = true then g x else x) = x := if_neg (by simp [hx])
          rw [List.map_cons, hfx]
          simp only [List.find?_cons, hx]
          exact ih

/-- The pickMax? fold never loses an already-chosen accumulator. -/
theorem foldl_pickMax_some_isSome {a : Type} (lt : a → a → Bool) :
    ∀ (l : List a) (b : a),
      (l.foldl
        (fun best x =>
          match best with
          | none => some x
          | some c => if lt c x then some x else some c)
        (some b)).isSome = true := by
  intro l
  induction l with
  | nil => intro b; rfl
  | cons x xs ih =>
      intro b
      simp only [List.foldl_cons]
      by_cases h : lt b x = true
      · simpa [h] using ih x
      · simpa [h] using ih b

/-- pickMax? returns none exactly on the empty list. -/
theorem pickMax?_eq_none_iff {a : Type} (lt : a → a → Bool) (l : List a) :
    pickMax? lt l = none ↔ l = [] := by
  cases l with
  | nil => simp [pickMax?]
  | cons x xs =>
      simp only [pickMax?, List.foldl_cons]
      constructor
      · intro h
        have hs := foldl_pickMax_some_isSome lt xs x
        rw [h] at hs
        exact absurd hs (by simp)
      · intro h
        exact absurd h (by simp)

/-- The application_id of a serialized case is the application's id. -/
theorem serializeSampleCase_application_id (db : DB) (a : Application) :
    (serializeSampleCase db a).application_id = a.id := rfl

/-- Returned case ids are the hash-ranked prefix of the eligible rejected
applications. -/
theorem sampleApplicationIds_eq (sha1hex : String → String) (db : DB) (rate : ℚ)
    (days : Int) (now : Timestamp) :
    sampleApplicationIds sha1hex db rate days now =
      ((stableSort (stabilityLe sha1hex (effectiveDaysBack days))
          (rejectedApplications db now (effectiveDaysBack days))).take
        (max 1 (Nat.floor (((rejectedApplications db now (effectiveDaysBack days)).length : ℚ)
          * effectiveSampleRate rate)))).map (fun a => a.id) := by
  simp only [sampleApplicationIds, get_review_sample]
  by_cases h : (rejectedApplications db now (effectiveDaysBack days)).length = 0
  · have hl : rejectedApplications db now (effectiveDaysBack days) = [] :=
      List.length_eq_zero.1 h
    rw [if_pos h, hl]
    simp [stableSort]
  · rw [if_neg h]
    simp only [deterministic_sample, List.map_map]
    exact List.map_congr_left (fun a _ => serializeSampleCase_application_id db a)

/-- Length of the returned case list when there are eligible applications. -/
theorem get_review_sample_cases_length (sha1hex : String → String) (db : DB) (rate : ℚ)
    (days : Int) (now : Timestamp)
    (h : (rejectedApplications db now (effectiveDaysBack days)).length ≠ 0) :
    (get_review_sample sha1hex db rate days now).cases.length =
      min (max 1 (Nat.floor (((rejectedApplications db now (effectiveDaysBack days)).length : ℚ)
        * effectiveSampleRate rate)))
        (rejectedApplications db now (effectiveDaysBack days)).length := by
  simp only [get_review_sample]
  rw [if_neg h]
  simp only [deterministic_sample, List.length_map, List.length_take, length_stableSort]

/-- The zero rate is clamped to one. -/
theorem effectiveSampleRate_zero : effectiveSampleRate 0 = 1 := by
  norm_num [effectiveSampleRate]

/-- The effective sampling rate is positive. -/
theorem effectiveSampleRate_pos (r : ℚ) : 0 < effectiveSampleRate r := by
  unfold effectiveSampleRate
  by_cases h : max 0 (min r 1) = 0
  · simp [h]
  · simp only [if_neg h]
    exact lt_of_le_of_ne (le_max_left 0 (min r 1)) (Ne.symm h)

/-- The effective sampling rate is at most one. -/
theorem effectiveSampleRate_le_one (r : ℚ) : effectiveSampleRate r ≤ 1 := by
  unfold effectiveSampleRate
  by_cases h : max 0 (min r 1) = 0
  · simp [h]
  · simp only [if_neg h]
    exact max_le (by norm_num) (min_le_right r 1)

/- ------------------------------------------------------------------ -/
/- Claim theorems.                                                     -/
/- ------------------------------------------------------------------ -/

/-- C1: two sampler calls with the same `(sample_rate, days_back)` against an
unchanged set of eligible rejected applications return the same application
ids in the same order, and that order is the prefix of the ranking by the
cryptographic-hash stability key `(sha1(f"{id}:{days}")[:8] / 0xFFFFFFFF,
submitted_at)` of length `max 1 ⌊T * rate⌋`. -/
theorem sampling_deterministic_hash_ranking
    (sha1hex : String → String) (db1 db2 : DB) (rate : ℚ) (days : Int)
    (now1 now2 : Timestamp)
    (h : rejectedApplications db1 now1 (effectiveDaysBack days) =
         rejectedApplications db2 now2 (effectiveDaysBack days)) :
    sampleApplicationIds sha1hex db1 rate days now1 =
      sampleApplicationIds sha1hex db2 rate days now2
    ∧ sampleApplicationIds sha1hex db1 rate days now1 =
      ((stableSort (stabilityLe sha1hex (effectiveDaysBack days))
          (rejectedApplications db1 now1 (effectiveDaysBack days))).take
        (max 1 (Nat.floor (((rejectedApplications db1 now1 (effectiveDaysBack days)).length : ℚ)
          * effectiveSampleRate rate)))).map (fun a => a.id) := by
  constructor
  · rw [sampleApplicationIds_eq sha1hex db1 rate days now1,
      sampleApplicationIds_eq sha1hex db2 rate days now2, h]
  · exact sampleApplicationIds_eq sha1hex db1 rate days now1

/-- Witness for C1 at a concrete store and parameters. -/
theorem sampling_deterministic_hash_ranking_witness :
    sampleApplicationIds constHash twoRejectedDB 1 30 0 =
      sampleApplicationIds constHash twoRejectedDB 1 30 0
    ∧ sampleApplicationIds constHash twoRejectedDB 1 30 0 =
      ((stableSort (stabilityLe constHash (effectiveDaysBack 30))
          (rejectedApplications twoRejectedDB 0 (effectiveDaysBack 30))).take
        (max 1 (Nat.floor (((rejectedApplications twoRejectedDB 0 (effectiveDaysBack 30)).length : ℚ)
          * effectiveSampleRate 1)))).map (fun a => a.id) :=
  sampling_deterministic_hash_ranking constHash twoRejectedDB twoRejectedDB 1 30 0 0 rfl

/-- C4 counterexample: with two eligible rejected applications and
`sample_rate = 0` the operation returns all 2 cases (0 is treated as 1.0),
while the claim's formula `max(1, floor(T*r))` yields 1. -/
theorem sample_size_formula_counterexample :
    (get_review_sample constHash twoRejectedDB 0 30 0).cases.length = 2
    ∧ max 1 (Nat.floor (((rejectedApplications twoRejectedDB 0 (effectiveDaysBack 30)).length : ℚ)
        * (0 : ℚ))) = 1
    ∧ ¬ ((get_review_sample constHash twoRejectedDB 0 30 0).cases.length
        = max 1 (Nat.floor (((rejectedApplications twoRejectedDB 0 (effectiveDaysBack 30)).length : ℚ)
          * (0 : ℚ)))) := by
  have hT : (rejectedApplications twoRejectedDB 0 (effectiveDaysBack 30)).length = 2 := by
    decide
  have hlen := get_review_sample_cases_length constHash twoRejectedDB 0 30 0 (by decide)
  rw [hT, effectiveSampleRate_zero] at hlen
  have h2 : (get_review_sample constHash twoRejectedDB 0 30 0).cases.length = 2 := by
    rw [hlen]
    norm_num
  have h1 : max 1 (Nat.floor (((rejectedApplications twoRejectedDB 0
      (effectiveDaysBack 30)).length : ℚ) * (0 : ℚ))) = 1 := by
    rw [hT]
    norm_num
  exact ⟨h2, h1, by rw [h2, h1]; norm_num⟩

/-- C4 amended: for T eligible rejected applications the returned case count
is `max 1 ⌊T * r'⌋` for the clamped effective rate r' (0 or out-of-range
rates are clamped, 0 meaning 1.0), never exceeding T; T = 0 yields an empty
case list with zeroed statistics rather than an error. -/
theorem sample_size_invariant (sha1hex : String → String) (db : DB) (rate : ℚ)
    (days : Int) (now : Timestamp) :
    ((rejectedApplications db now (effectiveDaysBack days)).length = 0 →
      (get_review_sample sha1hex db rate days now).cases = []
      ∧ (get_review_sample sha1hex db rate days now).statistics =
          { total_rejected := 0, sample_size := 0, reviewed_count := 0,
            bias_detected_count := 0, bias_rate := 0, common_bias_patterns := [] })
    ∧ (0 < (rejectedApplications db now (effectiveDaysBack days)).length →
      (get_review_sample sha1hex db rate days now).cases.length
        = max 1 (Nat.floor (((rejectedApplications db now (effectiveDaysBack days)).length : ℚ)
            * effectiveSampleRate rate))
      ∧ (get_review_sample sha1hex db rate days now).cases.length
        ≤ (rejectedApplications db now (effectiveDaysBack days)).length) := by
  constructor
  · intro h
    unfold get_review_sample
    simp only [h, if_pos rfl]
    exact ⟨rfl, rfl⟩
  · intro h
    have hne : (rejectedApplications db now (effectiveDaysBack days)).length ≠ 0 :=
      Nat.pos_iff_ne_zero.1 h
    have hk : max 1 (Nat.floor (((rejectedApplications db now (effectiveDaysBack days)).length : ℚ)
        * effectiveSampleRate rate))
        ≤ (rejectedApplications db now (effectiveDaysBack days)).length := by
      apply max_le h
      calc Nat.floor (((rejectedApplications db now (effectiveDaysBack days)).length : ℚ)
            * effectiveSampleRate rate)
          ≤ Nat.floor (((rejectedApplications db now (effectiveDaysBack days)).length : ℚ)) := by
            apply Nat.floor_le_floor
            have h1 : effectiveSampleRate rate ≤ 1 := effectiveSampleRate_le_one rate
            have h0 : (0 : ℚ) ≤ ((rejectedApplications db now (effectiveDaysBack days)).length : ℚ) := by
              positivity
            calc ((rejectedApplications db now (effectiveDaysBack days)).length : ℚ)
                  * effectiveSampleRate rate
                ≤ ((rejectedApplications db now (effectiveDaysBack days)).length : ℚ) * 1 :=
                  mul_le_mul_of_nonneg_left h1 h0
              _ = ((rejectedApplications db now (effectiveDaysBack days)).length : ℚ) :=
                  mul_one _
        _ = (rejectedApplications db now (effectiveDaysBack days)).length := Nat.floor_natCast _
    have hlen := get_review_sample_cases_length sha1hex db rate days now hne
    constructor
    · rw [hlen]
      exact min_eq_left hk
    · rw [hlen]
      exact min_le_right _ _

/-- Witness for C4's amended invariant at a concrete empty store and at a
concrete two-application store with rate one half. -/
theorem sample_size_invariant_witness :
    ((get_review_sample constHash emptyDB (1/2) 30 0).cases = []
      ∧ (get_review_sample constHash emptyDB (1/2) 30 0).statistics =
          { total_rejected := 0, sample_size := 0, reviewed_count := 0,
            bias_detected_count := 0, bias_rate := 0, common_bias_patterns := [] })
    ∧ ((get_review_sample constHash twoRejectedDB (1/2) 30 0).cases.length
        = max 1 (Nat.floor (((rejectedApplications twoRejectedDB 0 (effectiveDaysBack 30)).length : ℚ)
            * effectiveSampleRate (1/2)))
      ∧ (get_review_sample constHash twoRejectedDB (1/2) 30 0).cases.length
        ≤ (rejectedApplications twoRejectedDB 0 (effectiveDaysBack 30)).length) :=
  ⟨(sample_size_invariant constHash emptyDB (1/2) 30 0).1 (by decide),
   (sample_size_invariant constHash twoRejectedDB (1/2) 30 0).2 (by decide)⟩

/-- C5: requesting the snapshot for a window while its latest stored snapshot
is younger than 12 hours returns that stored snapshot unchanged (same
snapshot_id, no new row); when no snapshot exists for the window, or the
latest one is older than 12 hours, a new row keyed by the window and stamped
with the request time is appended and returned; consequently two requests
for the same window, the second within 12 hours of the first fresh
computation, return the identical snapshot id. -/
theorem snapshot_freshness (db : DB) (days : Int) (t1 t2 : Timestamp) (id1 id2 : String) :
    (∀ s, latestSnapshotFor db.snapshots (effectiveDaysBack days) = some s →
        t1 - s.generated_at < hoursSec SNAPSHOT_REFRESH_HOURS →
        get_or_create_snapshot db days t1 id1 = (s, db))
    ∧ ((latestSnapshotFor db.snapshots (effectiveDaysBack days) = none
        ∨ (∃ s, latestSnapshotFor db.snapshots (effectiveDaysBack days) = some s
            ∧ hoursSec SNAPSHOT_REFRESH_HOURS < t1 - s.generated_at)) →
        (get_or_create_snapshot db days t1 id1).1.id = id1
        ∧ (get_or_create_snapshot db days t1 id1).1.generated_at = t1
        ∧ (get_or_create_snapshot db days t1 id1).1.window_days = effectiveDaysBack days
        ∧ (get_or_create_snapshot db days t1 id1).2.snapshots
            = db.snapshots ++ [(get_or_create_snapshot db days t1 id1).1])
    ∧ (latestSnapshotFor db.snapshots (effectiveDaysBack days) = none →
        t2 - t1 < hoursSec SNAPSHOT_REFRESH_HOURS →
        (get_or_create_snapshot (get_or_create_snapshot db days t1 id1).2 days t2 id2).1.id
          = (get_or_create_snapshot db days t1 id1).1.id) := by
  refine ⟨?_, ?_, ?_⟩
  · intro s hs hfresh
    have h12 : hoursSec SNAPSHOT_REFRESH_HOURS = 43200 := rfl
    have hcond : decide (t1 - hoursSec SNAPSHOT_REFRESH_HOURS ≤ s.generated_at) = true :=
      decide_eq_true (by rw [h12] at hfresh ⊢; linarith)
    simp only [get_or_create_snapshot, hs, hcond, if_true]
  · intro hcase
    rcases hcase with hnone | ⟨s, hs, hstale⟩
    · simp only [get_or_create_snapshot, hnone]
      exact ⟨rfl, rfl, rfl, rfl⟩
    · have h12 : hoursSec SNAPSHOT_REFRESH_HOURS = 43200 := rfl
      have hcond : decide (t1 - hoursSec SNAPSHOT_REFRESH_HOURS ≤ s.generated_at) = false :=
        decide_eq_false (by rw [h12] at hstale ⊢; intro hc; linarith)
      simp only [get_or_create_snapshot, hs, hcond, if_false]
      exact ⟨rfl, rfl, rfl, rfl⟩
  · intro hnone hgap
    have hfil : db.snapshots.filter
        (fun s => s.window_days == effectiveDaysBack days) = [] := by
      have h1 := hnone
      simp only [latestSnapshotFor] at h1
      exact (pickMax?_eq_none_iff _ _).1 h1
    have hsnap : latestSnapshotFor
        ((create_snapshot db (effectiveDaysBack days) t1 id1).2).snapshots
        (effectiveDaysBack days)
        = some (create_snapshot db (effectiveDaysBack days) t1 id1).1 := by
      simp only [create_snapshot, latestSnapshotFor]
      rw [List.filter_append, hfil]
      simp [pickMax?]
    have hcond2 : decide (t2 - hoursSec SNAPSHOT_REFRESH_HOURS ≤
        ((create_snapshot db (effectiveDaysBack days) t1 id1).1).generated_at) = true := by
      have : ((create_snapshot db (effectiveDaysBack days) t1 id1).1).generated_at = t1 := rfl
      rw [this]
      have h12 : hoursSec SNAPSHOT_REFRESH_HOURS = 43200 := rfl
      exact decide_eq_true (by rw [h12] at hgap ⊢; linarith)
    simp only [get_or_create_snapshot, hnone, hsnap, hcond2, if_true]

/-- Witness for C5: a fresh stored snapshot is reused as-is, and after a
fresh computation a second request within 12 hours returns the same id. -/
theorem snapshot_freshness_witness :
    get_or_create_snapshot staleSnapshotDB 30 100 "NEW" = (staleSnapshot, staleSnapshotDB)
    ∧ (get_or_create_snapshot (get_or_create_snapshot emptyDB 30 0 "ID1").2 30 100 "ID2").1.id
        = (get_or_create_snapshot emptyDB 30 0 "ID1").1.id :=
  ⟨(snapshot_freshness staleSnapshotDB 30 100 100 "NEW" "NEW").1 staleSnapshot rfl (by decide),
   (snapshot_freshness emptyDB 30 0 100 "ID1" "ID2").2.2 rfl (by decide)⟩

/-- The second component of an enumerated pair is a member of the list. -/
theorem snd_mem_of_mem_enumFrom {a : Type} :
    ∀ (n : ℕ) (l : List a) (p : ℕ × a), p ∈ List.enumFrom n l → p.2 ∈ l := by
  intro n l
  induction l generalizing n with
  | nil => intro p h; simp [List.enumFrom] at h
  | cons x t ih =>
      intro p h
      simp only [List.enumFrom, List.mem_cons] at h
      rcases h with h | h
      · subst h; exact List.mem_cons_self x t
      · exact List.mem_cons_of_mem x (ih (n + 1) p h)

/-- C6 counterexample: training a window-30 model when the most recently
refreshed stored model belongs to window 7 (coefficient 3 for the retained
attribute) while the preceding window-30 model carried coefficient 5: the
persisted delta is the new coefficient 10 minus 3 — the latest model across
ALL windows — not minus the same-window coefficient 5 the claim requires. -/
theorem influence_delta_window_counterexample :
    ((train_influence_model demoBackend deltaDB 0 50 30 "NEW" demoFactorId 300).1.factors.map
        (fun f => (f.attribute_id, f.delta))) = [("attrA", 7)]
    ∧ (((specLatestModelForWindow deltaDB.influenceModels 30).bind
        (fun m => m.factors.reverse.find? (fun f => f.attribute_id == "attrA"))).map
        (fun f => f.coefficient)) = some 5
    ∧ ((train_influence_model demoBackend deltaDB 0 50 30 "NEW" demoFactorId 300).1.factors.map
        (fun f => (f.attribute_id, f.coefficient))) = [("attrA", 10)]
    ∧ ¬ ((7 : ℚ) = 10 - 5) := by
  have hd : ((train_influence_model demoBackend deltaDB 0 50 30 "NEW" demoFactorId 300).1.factors.map
      (fun f => (f.attribute_id, f.delta))) = [("attrA", (10 : ℚ) - 3)] := rfl
  refine ⟨?_, rfl, rfl, by norm_num⟩
  rw [hd]
  norm_num

/-- C6 amended: every retained factor's delta is its coefficient minus the
coefficient the same attribute had in the most recently refreshed stored
model across ALL windows (0 when the attribute is absent there or no model
is stored), not the preceding model of the same window. -/
theorem influence_delta_latest_any_window (backend : MLBackend) (db : DB)
    (ws we : Timestamp) (wd : Int) (mid : String) (fid : ℕ → String) (now : Timestamp)
    (f : InfluenceFactor)
    (hf : f ∈ (train_influence_model backend db ws we wd mid fid now).1.factors) :
    f.delta = f.coefficient -
      (((previousFactor (latestInfluenceModel db.influenceModels) f.attribute_id).map
        (fun p => p.coefficient)).getD 0) := by
  simp only [train_influence_model] at hf
  split at hf
  · simp [emptyInfluenceModel] at hf
  · split at hf
    · simp [emptyInfluenceModel] at hf
    · split at hf
      · simp [emptyInfluenceModel] at hf
      · simp only [List.map_map, List.mem_map, Function.comp] at hf
        obtain ⟨pair, hpair, heq⟩ := hf
        subst heq
        cases hp : previousFactor (latestInfluenceModel db.influenceModels) pair.2.id <;>
          simp [hp]

/-- Witness factor for the delta law: the single factor the delta fixture
training run persists. -/
theorem influence_delta_latest_any_window_witness :
    ((train_influence_model demoBackend deltaDB 0 50 30 "NEW" demoFactorId 300).1.factors.getD 0
        default).delta =
      ((train_influence_model demoBackend deltaDB 0 50 30 "NEW" demoFactorId 300).1.factors.getD 0
        default).coefficient -
      (((previousFactor (latestInfluenceModel deltaDB.influenceModels)
        ((train_influence_model demoBackend deltaDB 0 50 30 "NEW" demoFactorId 300).1.factors.getD 0
          default).attribute_id).map (fun p => p.coefficient)).getD 0) :=
  influence_delta_latest_any_window demoBackend deltaDB 0 50 30 "NEW" demoFactorId 300 _
    (by
      rw [show (train_influence_model demoBackend deltaDB 0 50 30 "NEW" demoFactorId 300).1.factors
          = [(train_influence_model demoBackend deltaDB 0 50 30 "NEW" demoFactorId 300).1.factors.getD 0
              default] from rfl]
      exact List.mem_singleton_self _)

/-- C8: a feature with constant value (always firing or never firing) across
all training reviews never appears among the persisted factor rows of the
resulting model. -/
theorem constant_feature_never_persisted (backend : MLBackend) (db : DB)
    (ws we : Timestamp) (wd : Int) (mid : String) (fid : ℕ → String) (now : Timestamp)
    (attr : InfluenceAttribute)
    (hmem : attr ∈ db.influenceAttributes)
    (hnodup : (db.influenceAttributes.map (fun a => a.id)).Nodup)
    (hconst : (∀ r ∈ reviewsInWindow db ws we, reviewFeature db attr.feature r = true)
        ∨ (∀ r ∈ reviewsInWindow db ws we, reviewFeature db attr.feature r = false)) :
    attr.id ∉ (train_influence_model backend db ws we wd mid fid now).1.factors.map
      (fun f => f.attribute_id) := by
  intro hin
  simp only [train_influence_model] at hin
  split at hin
  · simp [emptyInfluenceModel] at hin
  · split at hin
    · simp [emptyInfluenceModel] at hin
    · split at hin
      · simp [emptyInfluenceModel] at hin
      · simp only [List.map_map, List.mem_map, Function.comp] at hin
        obtain ⟨pair, hpair, hid⟩ := hin
        have hcfg : pair.2 ∈ activeConfigs db (reviewsInWindow db ws we)
            ((stableSort (fun a b => strLe a.id b.id) db.influenceAttributes).map
              attribute_config) :=
          snd_mem_of_mem_enumFrom 0 _ pair hpair
        simp only [activeConfigs, List.mem_filter] at hcfg
        obtain ⟨hcfg_mem, hcfg_cond⟩ := hcfg
        rw [List.mem_map] at hcfg_mem
        obtain ⟨a2, ha2_mem, ha2_eq⟩ := hcfg_mem
        have ha2_mem2 : a2 ∈ db.influenceAttributes := (mem_stableSort _ a2 _).1 ha2_mem
        have hids : a2.id = attr.id := by
          have : (attribute_config a2).id = a2.id := rfl
          rw [← hid, ← ha2_eq, this]
        have ha2 : a2 = attr := List.inj_on_of_nodup_map hnodup ha2_mem2 hmem hids
        subst ha2
        have hfeat : pair.2.feature = a2.feature := by
          rw [← ha2_eq]
          rfl
        rw [hfeat] at hcfg_cond
        rcases hconst with hall | hnone
        · have hcount : featureCount db (reviewsInWindow db ws we) a2.feature
              = (reviewsInWindow db ws we).length :=
            List.countP_eq_length.2 hall
          rw [hcount] at hcfg_cond
          simp at hcfg_cond
        · have hcount : featureCount db (reviewsInWindow db ws we) a2.feature = 0 :=
            List.countP_eq_zero.2 (fun r hr => by rw [hnone r hr]; simp)
          rw [hcount] at hcfg_cond
          simp at hcfg_cond

/-- Witness for C8: the constant attribute of the training fixture is absent
from the persisted factors. -/
theorem constant_feature_never_persisted_witness :
    attrConstant.id ∉ (train_influence_model demoBackend deltaDB 0 50 30 "NEW"
      demoFactorId 300).1.factors.map (fun f => f.attribute_id) :=
  constant_feature_never_persisted demoBackend deltaDB 0 50 30 "NEW" demoFactorId 300
    attrConstant (by decide) (by decide) (Or.inr (by decide))

/-- C9 counterexample: with an empty attribute catalog and only two reviews
the review-count prerequisite is unmet, yet the persisted empty model's
warnings do not mention it (only the catalog-empty warning is stored). -/
theorem empty_model_warning_counterexample :
    (reviewsInWindow noCatalogDB 0 50).length < MIN_MODEL_SAMPLE
    ∧ ¬ ("Insufficient reviewed cases to train influence model"
        ∈ (train_influence_model demoBackend noCatalogDB 0 50 30 "NEW"
            demoFactorId 300).1.warnings)
    ∧ (train_influence_model demoBackend noCatalogDB 0 50 30 "NEW"
        demoFactorId 300).1.factors = [] := by
  refine ⟨by decide, by decide, rfl⟩

/-- C9 amended: when the attribute catalog is non-empty and a training
prerequisite is unmet (fewer than 5 reviews in the window, scikit-learn
missing, or numpy missing), an empty model row is persisted and returned
whose warnings are exactly the messages for each unmet prerequisite; an
empty attribute catalog instead yields an empty model carrying the
catalog-empty warning. -/
theorem degraded_training_empty_model (backend : MLBackend) (db : DB)
    (ws we : Timestamp) (wd : Int) (mid : String) (fid : ℕ → String) (now : Timestamp) :
    (db.influenceAttributes ≠ [] →
      ((reviewsInWindow db ws we).length < MIN_MODEL_SAMPLE ∨ ¬backend.sklearnAvailable
        ∨ ¬backend.numpyAvailable) →
      (train_influence_model backend db ws we wd mid fid now).1.factors = []
      ∧ (train_influence_model backend db ws we wd mid fid now).1.sample_size
          = (reviewsInWindow db ws we).length
      ∧ (train_influence_model backend db ws we wd mid fid now).1.warnings =
          (if (reviewsInWindow db ws we).length < MIN_MODEL_SAMPLE
            then ["Insufficient reviewed cases to train influence model"] else [])
          ++ (if ¬backend.sklearnAvailable
            then ["scikit-learn not available; influence model skipped"] else [])
          ++ (if ¬backend.numpyAvailable
            then ["numpy not available; influence model skipped"] else [])
      ∧ (train_influence_model backend db ws we wd mid fid now).1.warnings ≠ []
      ∧ (train_influence_model backend db ws we wd mid fid now).2.influenceModels
          = db.influenceModels ++ [(train_influence_model backend db ws we wd mid fid now).1])
    ∧ (db.influenceAttributes = [] →
      (train_influence_model backend db ws we wd mid fid now).1.factors = []
      ∧ (train_influence_model backend db ws we wd mid fid now).1.warnings
          = ["Attribute catalog is empty; unable to train influence model."]
      ∧ (train_influence_model backend db ws we wd mid fid now).2.influenceModels
          = db.influenceModels ++ [(train_influence_model backend db ws we wd mid fid now).1]) := by
  constructor
  · intro hne hpre
    have hnotempty :
        ¬ ((stableSort (fun a b => strLe a.id b.id) db.influenceAttributes).isEmpty = true) := by
      rw [List.isEmpty_iff]
      intro hs
      apply hne
      have := length_stableSort (fun a b : InfluenceAttribute => strLe a.id b.id)
        db.influenceAttributes
      rw [hs] at this
      exact List.length_eq_zero.1 this.symm
    simp only [train_influence_model]
    rw [if_neg hnotempty, if_pos hpre]
    refine ⟨rfl, rfl, rfl, ?_, rfl⟩
    intro hW
    simp only [emptyInfluenceModel, List.append_eq_nil] at hW
    rcases hpre with h | h | h
    · rw [if_pos h] at hW
      simp at hW
    · rw [if_pos h] at hW
      simp at hW
    · rw [if_pos h] at hW
      simp at hW
  · intro hnil
    have hempty : (stableSort (fun a b => strLe a.id b.id) db.influenceAttributes).isEmpty
        = true := by
      rw [hnil]
      rfl
    simp only [train_influence_model]
    rw [if_pos hempty]
    exact ⟨rfl, rfl, rfl⟩

/-- Witness for C9's amended statement: two reviews with a non-empty catalog
degrade to an empty model warning about the insufficient sample, and the
empty catalog degrades to the catalog-empty warning. -/
theorem degraded_training_empty_model_witness :
    ((train_influence_model demoBackend fewReviewsDB 0 50 30 "NEW" demoFactorId 300).1.factors = []
      ∧ (train_influence_model demoBackend fewReviewsDB 0 50 30 "NEW" demoFactorId 300).1.sample_size
          = (reviewsInWindow fewReviewsDB 0 50).length
      ∧ (train_influence_model demoBackend fewReviewsDB 0 50 30 "NEW" demoFactorId 300).1.warnings =
          (if (reviewsInWindow fewReviewsDB 0 50).length < MIN_MODEL_SAMPLE
            then ["Insufficient reviewed cases to train influence model"] else [])
          ++ (if ¬demoBackend.sklearnAvailable
            then ["scikit-learn not available; influence model skipped"] else [])
          ++ (if ¬demoBackend.numpyAvailable
            then ["numpy not available; influence model skipped"] else [])
      ∧ (train_influence_model demoBackend fewReviewsDB 0 50 30 "NEW" demoFactorId 300).1.warnings ≠ []
      ∧ (train_influence_model demoBackend fewReviewsDB 0 50 30 "NEW" demoFactorId 300).2.influenceModels
          = fewReviewsDB.influenceModels
            ++ [(train_influence_model demoBackend fewReviewsDB 0 50 30 "NEW" demoFactorId 300).1])
    ∧ ((train_influence_model demoBackend noCatalogDB 0 50 30 "NEW" demoFactorId 300).1.factors = []
      ∧ (train_influence_model demoBackend noCatalogDB 0 50 30 "NEW" demoFactorId 300).1.warnings
          = ["Attribute catalog is empty; unable to train influence model."]
      ∧ (train_influence_model demoBackend noCatalogDB 0 50 30 "NEW" demoFactorId 300).2.influenceModels
          = noCatalogDB.influenceModels
            ++ [(train_influence_model demoBackend noCatalogDB 0 50 30 "NEW" demoFactorId 300).1]) :=
  ⟨(degraded_training_empty_model demoBackend fewReviewsDB 0 50 30 "NEW" demoFactorId 300).1
      (by decide) (Or.inl (by decide)),
   (degraded_training_empty_model demoBackend noCatalogDB 0 50 30 "NEW" demoFactorId 300).2 rfl⟩


/-- C7 counterexample: the seeded matrix row for `document_gap` DOES contain
`clear_to_proceed` (with requiresFollowUp false), contradicting the claim
that the pair is absent from that row. -/
theorem catalog_clear_to_proceed_present :
    "clear_to_proceed" ∈ (matrixRow seededCatalog "document_gap").map (fun e => e.code)
    ∧ (matrixRow seededCatalog "document_gap").any
        (fun e => e.code == "clear_to_proceed" && e.requiresFollowUp == false) = true := by
  refine ⟨by decide, by decide⟩

/-- C7 amended: every matrix entry backed by a stored rule carries exactly
the seeded requires_follow_up value; `document_gap` + `request_additional_docs`
is present and requires follow-up; `document_gap` + `clear_to_proceed` is
present with requiresFollowUp false; pairs absent from the seed, such as
`document_gap` + `escalate_to_policy`, do not appear in the row. -/
theorem catalog_matrix_follow_up_values :
    (seededCatalog.rules.all (fun r =>
      match ruleCodes seededCatalog.flagCategories seededCatalog.decisionCategories r with
      | some key => compatibility_seed.lookup key == some r.requires_follow_up
      | none => false)) = true
    ∧ ((get_flag_catalog_matrix seededCatalog).all (fun row =>
        row.2.all (fun e =>
          compatibility_seed.lookup (row.1, e.code) == some e.requiresFollowUp))) = true
    ∧ (matrixRow seededCatalog "document_gap").any
        (fun e => e.code == "request_additional_docs" && e.requiresFollowUp) = true
    ∧ ((matrixRow seededCatalog "document_gap").map (fun e => e.code)).contains
        "clear_to_proceed" = true
    ∧ ((matrixRow seededCatalog "document_gap").map (fun e => e.code)).contains
        "escalate_to_policy" = false
    ∧ (matrixRow seededCatalog "document_gap").map (fun e => e.code)
        = ["clear_to_proceed", "issue_conditional_approval", "overturn_flag",
           "refer_for_training", "request_additional_docs", "request_clarification"] := by
  refine ⟨by decide, by decide, by decide, by decide, by decide, by decide⟩

/-- C3: raw decision input is lower-cased and mapped through the synonym
table (validated to clear_to_proceed, escalated to escalate_to_policy)
before validation; a missing review, a missing or unrecognized decision, or
an unknown auditor is rejected with the corresponding 404/400 error, and
every error of the operation is decided by the pure validation phase, which
runs before any row is written. -/
theorem audit_decision_validation (db : DB) (review_id : String) (p : DecisionPayload)
    (now : Timestamp) (auditId sid1 sid2 : String) :
    (DECISION_NORMALIZATION.lookup "validated" = some "clear_to_proceed")
    ∧ (DECISION_NORMALIZATION.lookup "escalated" = some "escalate_to_policy")
    ∧ (∀ pair ∈ DECISION_NORMALIZATION, pair.2 ∈ ALLOWED_DECISIONS)
    ∧ (∀ s, rawDecision p = some s →
        normalizedDecision p = DECISION_NORMALIZATION.lookup (pyLower s))
    ∧ (db.biasReviews.find? (fun r => r.id == review_id) = none →
        submit_review_audit_decision db review_id p now auditId sid1 sid2
          = .error (404, "Bias review not found"))
    ∧ (∀ r, db.biasReviews.find? (fun x => x.id == review_id) = some r →
        rawDecision p = none →
        submit_review_audit_decision db review_id p now auditId sid1 sid2
          = .error (400, "Decision value is required"))
    ∧ (∀ r s, db.biasReviews.find? (fun x => x.id == review_id) = some r →
        rawDecision p = some s →
        DECISION_NORMALIZATION.lookup (pyLower s) = none →
        submit_review_audit_decision db review_id p now auditId sid1 sid2
          = .error (400, "Invalid decision value"))
    ∧ (∀ r s d, db.biasReviews.find? (fun x => x.id == review_id) = some r →
        rawDecision p = some s →
        DECISION_NORMALIZATION.lookup (pyLower s) = some d →
        (p.auditor_id = none
          ∨ ∃ aid, p.auditor_id = some aid ∧ db.officers.any (fun o => o.id == aid) = false) →
        submit_review_audit_decision db review_id p now auditId sid1 sid2
          = .error (404, "Auditing officer not found"))
    ∧ (∀ e, submit_review_audit_decision db review_id p now auditId sid1 sid2 = .error e
        ↔ audit_validate db review_id p = .error e) := by
  refine ⟨rfl, rfl, by decide, ?_, ?_, ?_, ?_, ?_, ?_⟩
  · intro s hs
    simp [normalizedDecision, hs]
  · intro hnone
    simp [submit_review_audit_decision, audit_validate, hnone]
  · intro r hr hraw
    simp [submit_review_audit_decision, audit_validate, hr, hraw]
  · intro r s hr hraw hlook
    simp [submit_review_audit_decision, audit_validate, normalizedDecision, hr, hraw, hlook]
  · intro r s d hr hraw hlook haud
    have hall : d ∈ ALLOWED_DECISIONS := by
      have hv : d ∈ DECISION_NORMALIZATION.map Prod.snd :=
        lookup_mem_values DECISION_NORMALIZATION (pyLower s) d hlook
      fin_cases hv <;> decide
    rcases haud with hnoneaud | ⟨aid, haid, hofficer⟩
    · simp [submit_review_audit_decision, audit_validate, normalizedDecision,
        hr, hraw, hlook, hall, hnoneaud]
    · simp [submit_review_audit_decision, audit_validate, normalizedDecision,
        hr, hraw, hlook, hall, haid, hofficer]
  · intro e
    constructor
    · intro h
      cases hv : audit_validate db review_id p with
      | error e2 =>
          simp only [submit_review_audit_decision] at h
          rw [hv] at h
          simpa using h
      | ok x =>
          obtain ⟨⟨rv, dv⟩, av⟩ := x
          simp [submit_review_audit_decision, hv] at h
    · intro h
      simp [submit_review_audit_decision, h]

/-- Witness for C3: concrete requests hitting the missing-review,
unrecognized-decision, and unknown-auditor rejections, plus the upper-cased
legacy synonym mapping. -/
theorem audit_decision_validation_witness :
    (submit_review_audit_decision auditDB "NOPE" auditPayload 0 "A1" "S1" "S2"
      = .error (404, "Bias review not found"))
    ∧ (submit_review_audit_decision auditDB "REV" bogusPayload 0 "A1" "S1" "S2"
      = .error (400, "Invalid decision value"))
    ∧ (submit_review_audit_decision auditDB "REV" ghostPayload 0 "A1" "S1" "S2"
      = .error (404, "Auditing officer not found"))
    ∧ normalizedDecision legacyPayload
      = DECISION_NORMALIZATION.lookup (pyLower "VALIDATED") :=
  ⟨(audit_decision_validation auditDB "NOPE" auditPayload 0 "A1" "S1" "S2").2.2.2.2.1
      (by decide),
   (audit_decision_validation auditDB "REV" bogusPayload 0 "A1" "S1" "S2").2.2.2.2.2.2.1
      pendingReview "bogus" (by decide) rfl (by decide),
   (audit_decision_validation auditDB "REV" ghostPayload 0 "A1" "S1" "S2").2.2.2.2.2.2.2.1
      pendingReview "request_additional_docs" "request_additional_docs" (by decide) rfl
      (by decide) (Or.inr ⟨"ghost", rfl, by decide⟩),
   (audit_decision_validation auditDB "REV" legacyPayload 0 "A1" "S1" "S2").2.2.2.1
      "VALIDATED" rfl⟩


/-- `determine_application_status` only reads the application and document
tables, so replacing the status-update, review and audit tables leaves it
unchanged. -/
theorem determine_status_irrelevant (db : DB) (su : List StatusUpdate)
    (br : List BiasReview) (ra : List ReviewAudit) (i vt : String) :
    determine_application_status
      { db with statusUpdates := su, biasReviews := br, reviewAudits := ra } i vt
      = determine_application_status db i vt := rfl

/-- C2: after a successful audit decision, if the parent application still
has an unresolved flag attached to the review, the application is forced to
`flagged_for_review` with exactly one new status note, idempotently (no new
note and no application change when it is already in that status); if no
unresolved flag remains, the next status is recomputed from the document
completeness rules, the application transitions there with exactly one new
status note when it differs, and nothing changes when it already matches. -/
theorem audit_decision_flag_reevaluation
    (db : DB) (review_id : String) (p : DecisionPayload) (now : Timestamp)
    (auditId sid1 sid2 : String) (review : BiasReview) (d aid : String)
    (app : Application) (db2 : DB)
    (hval : audit_validate db review_id p = .ok (review, d, aid))
    (hok : submit_review_audit_decision db review_id p now auditId sid1 sid2 = .ok db2)
    (happ : db.applications.find? (fun a => a.id == review.application_id) = some app) :
    ((db.flaggedDocuments.filter
        (fun f => f.bias_review_id == some review.id && !f.resolved)).isEmpty = false →
      (app.status = FLAG_AUDITED_STATUS →
        db2.applications = db.applications
        ∧ db2.statusUpdates
            = db.statusUpdates ++ escalationUpdates d review.application_id aid now sid1)
      ∧ (app.status ≠ FLAG_AUDITED_STATUS →
        (db2.applications.find? (fun a => a.id == app.id)).map (fun a => a.status)
          = some FLAG_AUDITED_STATUS
        ∧ db2.statusUpdates
            = db.statusUpdates ++ escalationUpdates d review.application_id aid now sid1
              ++ [{ id := sid2, application_id := app.id, status := FLAG_AUDITED_STATUS,
                    notes := some ("Senior audit decision recorded: " ++ d ++ "."),
                    officer_id := some aid, timestamp := now }]))
    ∧ ((db.flaggedDocuments.filter
        (fun f => f.bias_review_id == some review.id && !f.resolved)).isEmpty = true →
      (app.status = determine_application_status db app.id app.visa_type →
        db2.applications = db.applications
        ∧ db2.statusUpdates
            = db.statusUpdates ++ escalationUpdates d review.application_id aid now sid1)
      ∧ (determine_application_status db app.id app.visa_type ≠ "" →
          app.status ≠ determine_application_status db app.id app.visa_type →
        (db2.applications.find? (fun a => a.id == app.id)).map (fun a => a.status)
          = some (determine_application_status db app.id app.visa_type)
        ∧ db2.statusUpdates
            = db.statusUpdates ++ escalationUpdates d review.application_id aid now sid1
              ++ [{ id := sid2, application_id := app.id,
                    status := determine_application_status db app.id app.visa_type,
                    notes := some ("Application status updated after audit: "
                      ++ determine_application_status db app.id app.visa_type ++ "."),
                    officer_id := some aid, timestamp := now }])) := by
  have hdb2 : db2 = audit_apply db review d aid p.notes now auditId sid1 sid2 := by
    have h := hok
    simp only [submit_review_audit_decision] at h
    rw [hval] at h
    have h2 : Except.ok (ε := ℕ × String)
        (audit_apply db review d aid p.notes now auditId sid1 sid2) = .ok db2 := h
    exact (Except.ok.inj h2).symm
  subst hdb2
  have hid : app.id = review.application_id := by
    have h := List.find?_some happ
    simpa using h
  have happ2 : db.applications.find? (fun a => a.id == app.id) = some app := by
    rw [hid]
    exact happ
  constructor
  · intro hact
    constructor
    · intro hstat
      constructor
      · simp only [audit_apply]
        rw [happ]
        simp [hact, hstat]
      · simp only [audit_apply]
        rw [happ]
        simp [hact, hstat]
    · intro hstat
      have h1 := find?_map_update (fun a : Application => a.id) app.id
        (fun a => { a with status := FLAG_AUDITED_STATUS, updated_at := now })
        (fun _ => rfl) db.applications
      beta_reduce at h1
      constructor
      · simp only [audit_apply]
        rw [happ]
        simp only [hact, Bool.not_false, if_true]
        rw [if_pos hstat]
        simp only [h1, happ2, Option.map_some]
        rfl
      · simp only [audit_apply]
        rw [happ]
        simp only [hact, Bool.not_false, if_true]
        rw [if_pos hstat]
  · intro hact
    constructor
    · intro hstat
      have hcond : ¬(determine_application_status db app.id app.visa_type ≠ ""
          ∧ app.status ≠ determine_application_status db app.id app.visa_type) := by
        simp [hstat]
      constructor
      · simp only [audit_apply]
        rw [happ]
        simp only [hact, Bool.not_true, if_false, determine_status_irrelevant]
        rw [if_neg hcond]
        rfl
      · simp only [audit_apply]
        rw [happ]
        simp only [hact, Bool.not_true, if_false, determine_status_irrelevant]
        rw [if_neg hcond]
        rfl
    · intro hne hstat
      have hcond : determine_application_status db app.id app.visa_type ≠ ""
          ∧ app.status ≠ determine_application_status db app.id app.visa_type :=
        ⟨hne, hstat⟩
      have h1 := find?_map_update (fun a : Application => a.id) app.id
        (fun a => { a with
          status := determine_application_status db app.id app.visa_type
          updated_at := now })
        (fun _ => rfl) db.applications
      beta_reduce at h1
      constructor
      · simp only [audit_apply]
        rw [happ]
        simp only [hact, Bool.not_true, if_false, determine_status_irrelevant]
        rw [if_pos hcond]
        rw [if_neg Bool.false_ne_true]
        simp only [h1, happ2, Option.map_some]
        rfl
      · simp only [audit_apply]
        rw [happ]
        simp only [hact, Bool.not_true, if_false, determine_status_irrelevant]
        rw [if_pos hcond]
        rfl

/-- Witness for C2: the fixture decision leaves an unresolved flag on the
review, so the application is forced to `flagged_for_review` with exactly
one new status note. -/
theorem audit_decision_flag_reevaluation_witness :
    (auditResultDB.applications.find? (fun a => a.id == auditApplication.id)).map
        (fun a => a.status) = some FLAG_AUDITED_STATUS
    ∧ auditResultDB.statusUpdates
        = auditDB.statusUpdates
          ++ escalationUpdates "request_additional_docs" pendingReview.application_id
              "aud" 100 "S1"
          ++ [{ id := "S2", application_id := auditApplication.id,
                status := FLAG_AUDITED_STATUS,
                notes := some ("Senior audit decision recorded: "
                  ++ "request_additional_docs" ++ "."),
                officer_id := some "aud", timestamp := 100 }] :=
  (audit_decision_flag_reevaluation auditDB "REV" auditPayload 100 "AUD1" "S1" "S2"
      pendingReview "request_additional_docs" "aud" auditApplication auditResultDB
      rfl rfl (by decide)).1 (by decide) |>.2 (by decide)

/-- C10: resubmitting a bias review for an application that already has one
updates the existing review row in place, resetting its audit status to
pending unconditionally, while the audit history rows, the review count and
the flagged documents are all preserved. -/
theorem resubmission_resets_audit_status
    (db : DB) (application_id : String) (rd : ReviewSubmission) (now : Timestamp)
    (nrid nsid : String) (existing : BiasReview) (db2 : DB)
    (hex : latestReviewFor db.biasReviews application_id = some existing)
    (hok : submit_review db application_id rd now nrid nsid = .ok db2) :
    (db2.biasReviews.find? (fun r => r.id == existing.id)).map
        (fun r => (r.audit_status, r.updated_at))
      = some ("pending", now)
    ∧ db2.reviewAudits = db.reviewAudits
    ∧ db2.biasReviews.length = db.biasReviews.length
    ∧ db2.flaggedDocuments = db.flaggedDocuments := by
  simp only [submit_review, hex] at hok
  split at hok
  · exact Except.noConfusion hok
  · split at hok
    · exact Except.noConfusion hok
    · split at hok
      · exact Except.noConfusion hok
      · have hmem : existing ∈ db.biasReviews := by
          have h := pickMax?_mem _ _ _ hex
          exact (List.mem_filter.mp h).1
        have h1 := find?_map_replace (fun r : BiasReview => r.id) existing.id
          ({ existing with
              result := rd.result.getD existing.result
              notes := match rd.notes with
                | some n => some n
                | none => existing.notes
              officer_id := match truthyStr rd.officer_id with
                | some oid => oid
                | none => existing.officer_id
              ai_confidence := match rd.ai_confidence with
                | some c => some c
                | none => existing.ai_confidence
              reviewed_at := now
              audit_status := "pending"
              updated_at := now }) (by simp)
          db.biasReviews ⟨existing, hmem, by simp⟩
        beta_reduce at h1
        have hEq := (Except.ok.inj hok).symm
        by_cases hbias : (rd.result == some "biased") = true
        · rw [if_pos hbias] at hEq
          subst hEq
          refine ⟨?_, rfl, by simp, rfl⟩
          simp only [h1]
          rfl
        · rw [if_neg hbias] at hEq
          subst hEq
          refine ⟨?_, rfl, by simp, rfl⟩
          simp only [h1]
          rfl

/-- Witness for C10: resubmitting over a review closed as clear_to_proceed
resets it to pending at the new timestamp and keeps the prior audit row. -/
theorem resubmission_resets_audit_status_witness :
    (resubmitResultDB.biasReviews.find? (fun r => r.id == auditedReview.id)).map
        (fun r => (r.audit_status, r.updated_at))
      = some ("pending", 50)
    ∧ resubmitResultDB.reviewAudits = resubmitDB.reviewAudits
    ∧ resubmitResultDB.biasReviews.length = resubmitDB.biasReviews.length
    ∧ resubmitResultDB.flaggedDocuments = resubmitDB.flaggedDocuments :=
  resubmission_resets_audit_status resubmitDB "APP" resubmission 50 "NR" "NS"
    auditedReview resubmitResultDB (by decide) rfl

end VisaLegatio
